import Mathlib

/-!
Verification of the OpenPlayer media-player components against their
natural-language specification.

The development shallow-embeds the algorithmic fragments of the code base:

* `Captions._search` — the binary search over cue lists
  (src/js/interactive/captions.ts, lines 584–601);
* `Captions._getCuesFromText` — the WebVTT line parser (lines 462–516);
* `Captions._sanitize` — the caption-HTML sanitizer (lines 614–641),
  modelled over an explicit DOM forest with live-collection semantics;
* `Media` — the media-source facade (load, levels, `_getMediaFiles`,
  the `src`/`mediaFiles` setters);
* `Fullscreen.create` / `Fullscreen.destroy` — listener bookkeeping,
  modelled with explicit function-object identities;
* `Ads` — the ad-orchestration component as a pure state-transition system
  (`_error`, `_assign`, content pause/resume, `_resumeMedia`, `_prepareMedia`).

JavaScript numbers are modelled as `ℚ` (all operations performed on them by
this code are exact on the values that occur), fallible code returns
`Except`/`Option`, and the two potentially non-terminating loops are given
explicit fuel, with divergence expressed as `none` for every fuel value.
-/

/-! ## Cues and the caption binary search (`Captions._search`) -/

/-- A caption cue, from src/js/interfaces/captions/cue.ts: a timestamped
caption text fragment.  The `settings` field (a JSON object parsed from the
trailing text of a timecode line) is not modelled; no claim mentions it.
`identifier` is `none` when the JS variable still holds `undefined`. -/
structure Cue where
  startTime : ℚ
  endTime : ℚ
  identifier : Option String
  text : String
deriving DecidableEq, Repr

/-- The loop of `Captions._search` (captions.ts lines 585–599):

```
let low = 0;
let high = tracks.length - 1;
while (low <= high) {
    const mid = ((low + high) >> 1);
    const start = tracks[mid].startTime;
    const stop = tracks[mid].endTime;
    if (currentTime >= start && currentTime < stop) {
        return mid;
    } else if (start < currentTime) {
        low = mid + 1;
    } else if (start > currentTime) {
        high = mid - 1;
    }
}
return -1;
```

`>> 1` is an arithmetic shift, i.e. floor division by two (`Int.ediv`).
When none of the three branches applies (`start = currentTime` and
`currentTime ≥ stop`) the loop body changes nothing and the loop spins;
the embedding makes each iteration consume one unit of fuel, and running
out of fuel yields `none`. -/
def searchLoop (tracks : List Cue) (currentTime : ℚ) : Nat → Int → Int → Option Int
  | 0, _, _ => none
  | fuel + 1, low, high =>
    if low ≤ high then
      let mid : Int := (low + high) / 2
      let c := tracks.getD mid.toNat ⟨0, 0, none, ""⟩
      if currentTime ≥ c.startTime ∧ currentTime < c.endTime then some mid
      else if c.startTime < currentTime then searchLoop tracks currentTime fuel (mid + 1) high
      else if c.startTime > currentTime then searchLoop tracks currentTime fuel low (mid - 1)
      else searchLoop tracks currentTime fuel low high
    else some (-1)

/-- `Captions._search tracks currentTime`, with explicit fuel:
`some i` is the JS return value, `none` means the fuel ran out. -/
def captions_search (tracks : List Cue) (currentTime : ℚ) (fuel : Nat) : Option Int :=
  searchLoop tracks currentTime fuel 0 ((tracks.length : Int) - 1)

/-- A cue whose half-open interval `[startTime, endTime)` contains `t`. -/
def cueContains (c : Cue) (t : ℚ) : Prop :=
  c.startTime ≤ t ∧ t < c.endTime

instance (c : Cue) (t : ℚ) : Decidable (cueContains c t) := by
  unfold cueContains; infer_instance

/-- The cue list is sorted by `startTime` in ascending order. -/
def cuesSorted (tracks : List Cue) : Prop :=
  tracks.Pairwise (fun a b => a.startTime ≤ b.startTime)

/-- Cue intervals do not overlap: every cue ends no later than any
later cue starts. -/
def cuesNonOverlapping (tracks : List Cue) : Prop :=
  tracks.Pairwise (fun a b => a.endTime ≤ b.startTime)

instance (tracks : List Cue) : Decidable (cuesSorted tracks) := by
  unfold cuesSorted; infer_instance

instance (tracks : List Cue) : Decidable (cuesNonOverlapping tracks) := by
  unfold cuesNonOverlapping; infer_instance

/-- `Captions._search` never returns on the given input: the loop spins
forever, so for every amount of fuel the embedding yields `none`. -/
def searchDiverges (tracks : List Cue) (t : ℚ) : Prop :=
  ∀ fuel, captions_search tracks t fuel = none

/-- `Captions._search` never produces the result `r` on the given input,
for any amount of fuel. -/
def searchNeverReturns (tracks : List Cue) (t : ℚ) (r : Int) : Prop :=
  ∀ fuel, captions_search tracks t fuel ≠ some r

/-! ## Levels and the Media facade -/

/-- `Level` (src/js/interfaces/level.ts): an adaptive-bitrate rendition
descriptor exposed by streaming backends.  It has exactly the fields
`height : number`, `id : number` and `label : string | number`. -/
structure Level where
  height : ℚ
  id : ℚ
  label : String ⊕ ℚ
deriving DecidableEq

/-- A media source entry `{src, type}` as stored in `#files`. -/
structure MediaSource where
  src : String
  type : String
deriving DecidableEq, Repr

/-- The streaming backend held in the private `#media` field of `Media`
(an HTML5/HLS/DASH/FLV wrapper).  Only the parts the claims touch are
modelled: the current rendition `level` and the `levels` list. -/
structure BackendMedia where
  level : ℚ
  levels : List Level
deriving DecidableEq

/-- The `Media` facade state: the backend (`#media`, which stays unset
until `load` assigns it) and the files list (`#files`). -/
structure MediaState where
  media : Option BackendMedia
  files : List MediaSource
deriving DecidableEq

/-- `get level()` (part_003 line 203–205): the backend's level, `-1` when
no backend media is set. -/
def media_levelGet (s : MediaState) : ℚ :=
  match s.media with
  | some m => m.level
  | none => -1

/-- `get levels()` (part_003 line 206–208): the backend's levels, `[]` when
no backend media is set. -/
def media_levelsGet (s : MediaState) : List Level :=
  match s.media with
  | some m => m.levels
  | none => []

/-- `set level(value)` (part_003 line 198–202): forwards to the backend,
does nothing when no backend media is set. -/
def media_levelSet (s : MediaState) (v : ℚ) : MediaState :=
  match s.media with
  | some m => { s with media := some { m with level := v } }
  | none => s

/-- Modelled from the spec: `predictType` (src/js/utils/media.ts, not among
the provided sources) predicts a MIME type from a source URL.  Only its
totality matters here; no claim depends on its value. -/
def predictType (_url : String) : String := "video/mp4"

/-- A `<source>` tag inside the media element: its `src` property and its
`type` attribute (`none` when the attribute is absent). -/
structure SourceTag where
  src : String
  typeAttr : Option String
deriving DecidableEq

/-- The inputs `Media._getMediaFiles` reads from the media element:
`element.src` (where the empty string is falsy, i.e. counts as no source),
`element.getAttribute('type')`, and the `<source>` tags. -/
structure MediaElement where
  src : String
  typeAttr : Option String
  sourceTags : List SourceTag
deriving DecidableEq

/-- `attr || predictType(src)` on a nullable string attribute: both `null`
and the empty string are falsy in JS. -/
def attrOrPredict (attr : Option String) (src : String) : String :=
  match attr with
  | some t => if t ≠ "" then t else predictType src
  | none => predictType src

/-- `Media._getMediaFiles` (part_003 lines 212–240): collect the element's
own `src` (when truthy) and every `<source>` tag into `{src, type}` entries,
and push a placeholder entry with empty `src` when nothing was found.
The side assignment of `#currentSrc` at the first source tag is not
modelled (no claim mentions it). -/
def media_getMediaFiles (el : MediaElement) : List MediaSource :=
  let fromNode : List MediaSource :=
    if el.src ≠ "" then [⟨el.src, attrOrPredict el.typeAttr el.src⟩] else []
  let fromTags : List MediaSource :=
    el.sourceTags.map (fun tag => (⟨tag.src, attrOrPredict tag.typeAttr tag.src⟩ : MediaSource))
  let mediaFiles := fromNode ++ fromTags
  if mediaFiles.isEmpty then [⟨"", predictType ""⟩] else mediaFiles

/-- The `#media := this._invoke(media)` loop inside `Media.load`
(`#files.some(...)`, part_003 lines 53–61): `#media` is assigned on every
iteration and iteration stops at the first file whose type can be played,
so the loop leaves `#media` holding the backend for the first playable
file, or for the last file when none is playable. -/
def invokeLoop (canPlay : MediaSource → Bool) :
    List MediaSource → Option MediaSource → Option MediaSource
  | [], acc => acc
  | f :: rest, _ => if canPlay f then some f else invokeLoop canPlay rest (some f)

/-- The part of `Media.load` the claims concern (part_003 lines 43–74): the
`TypeError('Media not set')` guard on an empty `#files`, the
backend-choosing loop, and the `'Media cannot be played...'` branch (dead:
the loop always assigns `#media` when the file list is non-empty).
Returns the source chosen for the backend on success. -/
def media_load (canPlay : MediaSource → Bool) (files : List MediaSource) :
    Except String MediaSource :=
  if files.length = 0 then Except.error "Media not set"
  else
    match invokeLoop canPlay files none with
    | none => Except.error "Media cannot be played with any valid media type"
    | some m => Except.ok m

/-- The argument of the `src` setter: a string URL, an array of sources, or
a single source object (part_003 lines 104–116). -/
inductive SrcArg where
  | str (s : String)
  | arr (l : List MediaSource)
  | obj (o : MediaSource)
deriving DecidableEq

/-- The `#files` update performed by the `src` setter (part_003 lines
104–116).  The update happens first; only afterwards does the setter
dereference `#files[0]` (which throws a TypeError when the new list is
empty — but by then `#files` has already been replaced). -/
def media_setSrcFiles (files : List MediaSource) : SrcArg → List MediaSource
  | .str s => files ++ [⟨s, predictType s⟩]
  | .arr l => l
  | .obj o => files ++ [o]

/-- One mutation of `#files` after construction: through the `src` setter
or through the `mediaFiles` setter (part_003 lines 133–135). -/
inductive MediaFilesOp where
  | setSrc (a : SrcArg)
  | setMediaFiles (l : List MediaSource)
deriving DecidableEq

/-- Effect of one setter call on `#files`. -/
def applyMediaFilesOp (files : List MediaSource) : MediaFilesOp → List MediaSource
  | .setSrc a => media_setSrcFiles files a
  | .setMediaFiles l => l

/-- Effect of a sequence of setter calls on `#files`. -/
def applyMediaFilesOps (files : List MediaSource) (ops : List MediaFilesOp) : List MediaSource :=
  ops.foldl applyMediaFilesOp files

/-! ## Fullscreen listener bookkeeping (`Fullscreen.create` / `destroy`) -/

/-- A DOM event-listener registration: target, event name, and the identity
of the listener function object.  The DOM compares listeners by object
identity: `removeEventListener` removes a registration only when given the
very same function object that `addEventListener` received. -/
structure ListenerEntry where
  target : String
  event : String
  fnId : Nat
deriving DecidableEq, Repr

/-- Listener-bookkeeping state: the registered listeners plus a counter
supplying the identity of the next freshly created function object — each
`.bind(this)` call and each arrow-function literal evaluates to a new
object. -/
structure ListenerState where
  listeners : List ListenerEntry
  nextFn : Nat
deriving DecidableEq, Repr

/-- `target.addEventListener(event, fn)`: a no-op when the identical
(target, event, listener) triple is already registered. -/
def addListener (s : ListenerState) (target event : String) (fnId : Nat) : ListenerState :=
  if (⟨target, event, fnId⟩ : ListenerEntry) ∈ s.listeners then s
  else { s with listeners := s.listeners ++ [⟨target, event, fnId⟩] }

/-- `target.removeEventListener(event, fn)`: removes exactly the identical
triple; a no-op when no such registration exists. -/
def removeListener (s : ListenerState) (target event : String) (fnId : Nat) : ListenerState :=
  { s with listeners := s.listeners.filter (fun e => e ≠ ⟨target, event, fnId⟩) }

/-- Evaluate `.bind(this)` (or an arrow-function literal) and pass the fresh
function object to `addEventListener`. -/
def addFresh (s : ListenerState) (target event : String) : ListenerState :=
  addListener { s with nextFn := s.nextFn + 1 } target event s.nextFn

/-- Evaluate `.bind(this)` (or an arrow-function literal) and pass the fresh
function object to `removeEventListener`. -/
def removeFresh (s : ListenerState) (target event : String) : ListenerState :=
  removeListener { s with nextFn := s.nextFn + 1 } target event s.nextFn

/-- `this.fullscreenEvents` (fullscreen.ts lines 150–155). -/
def fullscreenEvents : List String :=
  ["fullscreenchange", "mozfullscreenchange", "webkitfullscreenchange", "msfullscreenchange"]

/-- The listener registrations performed by `Fullscreen.create`
(fullscreen.ts lines 134–182), in source order: the container `keydown`
listener (`this._keydownEvent.bind(this)`), one document-level listener per
name in `fullscreenEvents` (each a fresh `this._fullscreenChange.bind(this)`
created inside the `forEach`), the button `click` listener
(`this.clickEvent.bind(this)`), and on iPhone the two element-level
`webkitbeginfullscreen`/`webkitendfullscreen` arrow-function listeners. -/
def fullscreen_create (isIphone : Bool) (s : ListenerState) : ListenerState :=
  let s1 := addFresh s "container" "keydown"
  let s2 := fullscreenEvents.foldl (fun st ev => addFresh st "document" ev) s1
  let s3 := addFresh s2 "button" "click"
  if isIphone then
    addFresh (addFresh s3 "element" "webkitbeginfullscreen") "element" "webkitendfullscreen"
  else s3

/-- The listener removals performed by `Fullscreen.destroy` (fullscreen.ts
lines 189–209), in source order.  Every removal passes a *fresh*
`.bind(this)` result or arrow-function literal to `removeEventListener`.
`removeElement(this.button)` only detaches the button from the DOM tree; it
does not unregister listeners, so it leaves the store unchanged. -/
def fullscreen_destroy (isIphone : Bool) (s : ListenerState) : ListenerState :=
  let s1 := removeFresh s "container" "keydown"
  let s2 := fullscreenEvents.foldl (fun st ev => removeFresh st "document" ev) s1
  let s3 :=
    if isIphone then
      removeFresh (removeFresh s2 "element" "webkitbeginfullscreen") "element" "webkitendfullscreen"
    else s2
  removeFresh s3 "button" "click"

/-! ## The Ads orchestration component

`Ads` (the second file in part_003) is embedded as a pure state-transition
system.  DOM manipulation and SDK calls appear as entries in an
observable-effect `log`; the third-party SDK's own choices (which events it
fires, with which parameters) become parameters of the transition
functions.  The `#events` listener-name array and the ads DOM container are
not modelled (no claim depends on them). -/

/-- The configured ads source `#ads`: a single ad tag, or an array of ad
tags. -/
inductive AdsSrc where
  | single (tag : String)
  | many (tags : List String)
deriving DecidableEq, Repr

/-- Observable effects of the `Ads` component, in execution order:
element-event dispatches, console output, SDK and media calls. -/
inductive AdsFx where
  | dispatch (event : String)
  | warn
  | errorLog
  | destroyDom
  | managerDestroy
  | loadSetup
  | adContainerInit
  | requestAds (tag : String)
  | contentComplete
  | mediaLoad
  | mediaPlay
  | retryMetadata
  | clearTimer
deriving DecidableEq, Repr

/-- State of the `Ads` component: its private fields (source names kept),
the relevant state of the content media / element, the construction-time
options, the platform flag, and the effect log. -/
structure AdsState where
  adsEnded : Bool
  adsDone : Bool
  adsActive : Bool
  adsStarted : Bool
  intervalTimer : Nat
  adsMuted : Bool
  adsDuration : ℚ
  adsCurrentTime : ℚ
  adsManager : Bool
  ads : AdsSrc
  playTriggered : Bool
  currentAdsIndex : Nat
  lastTimePaused : ℚ
  mediaSources : List String
  mediaStarted : Bool
  adsVolume : ℚ
  originalVolume : ℚ
  autoStart : Bool
  autoStartMuted : Bool
  loop : Bool
  autoPlayAdBreaks : Bool
  enablePreloading : Bool
  mobile : Bool
  mediaPaused : Bool
  mediaEnded : Bool
  mediaCurrentTime : ℚ
  mediaVolume : ℚ
  mediaMuted : Bool
  mediaSrc : List String
  elementCurrentTime : ℚ
  elementDuration : ℚ
  seekableEnd : Option ℚ
  log : List AdsFx
deriving DecidableEq, Repr

/-- Append one observable effect. -/
def logFx (s : AdsState) (e : AdsFx) : AdsState :=
  { s with log := s.log ++ [e] }

/-- `Array.isArray(#ads)`. -/
def adsIsArray (s : AdsState) : Bool :=
  match s.ads with
  | .single _ => false
  | .many _ => true

/-- `#ads.length` when `#ads` is an array (only read under an
`Array.isArray` guard in the source). -/
def adsLen (s : AdsState) : Nat :=
  match s.ads with
  | .single _ => 0
  | .many l => l.length

/-- `Ads.destroy` (part_003 lines 462–499): listener teardown and DOM
removal (one `destroyDom` entry), and `adsManager.destroy()` exactly when
`!Array.isArray(#ads) || #currentAdsIndex > #ads.length` and a manager
exists.  Note the comparison is with `length`, not `length - 1`. -/
def ads_destroy (s : AdsState) : AdsState :=
  let s := logFx s .destroyDom
  if (!(adsIsArray s) || decide ((s.currentAdsIndex : Int) > (adsLen s : Int))) && s.adsManager then
    logFx s .managerDestroy
  else s

/-- `Ads._requestAds` (part_003 lines 926–944): requests
`#ads[#currentAdsIndex]` when `#ads` is an array, `#ads` itself otherwise
(an out-of-range index yields `undefined`, modelled as `""`). -/
def ads_requestAds (s : AdsState) : AdsState :=
  let tag :=
    match s.ads with
    | .single t => t
    | .many l => l.getD s.currentAdsIndex ""
  logFx s (.requestAds tag)

/-- `Ads.load(force)` (part_003 lines 382–431): bail out unless ad breaks
auto-play or `force` is set; otherwise rebuild the ads DOM container and the
SDK loader (`loadSetup`), set `#adsStarted := true`, capture
`#mediaSources := media.src`, and when `#autoStart`, `#autoStartMuted`,
`force` or `#enablePreloading` holds, initialize the ad display container
(once, guarded by `#adsDone`) and request ads. -/
def ads_load (force : Bool) (s : AdsState) : AdsState :=
  if !s.autoPlayAdBreaks && !force then s
  else
    let s := logFx s .loadSetup
    let s := { s with adsStarted := true, mediaSources := s.mediaSrc }
    if s.autoStart || s.autoStartMuted || force || s.enablePreloading then
      let s := if !s.adsDone then logFx { s with adsDone := true } .adContainerInit else s
      ads_requestAds s
    else s

/-- `Ads._resumeMedia` (part_003 lines 903–925): reset the ad-progress
fields, then (via `waitPromise(50, media.ended)`) either dispatch `ended`
when the content media already ended, or call `media.play()` and dispatch
`play`. -/
def ads_resumeMedia (s : AdsState) : AdsState :=
  let s := { s with intervalTimer := 0, adsMuted := false, adsStarted := false,
                    adsDuration := 0, adsCurrentTime := 0 }
  if s.mediaEnded then logFx s (.dispatch "ended")
  else logFx (logFx { s with mediaPaused := false } .mediaPlay) (.dispatch "play")

/-- `Ads._prepareMedia` (part_003 lines 960–964): restore the content
media's `currentTime` from `#lastTimePaused` and resume.  (The
`removeEventListener('loadedmetadata', ...bind(this))` call passes a fresh
bound function and removes nothing; listener bookkeeping is not modelled
here.) -/
def ads_prepareMedia (s : AdsState) : AdsState :=
  ads_resumeMedia { s with mediaCurrentTime := s.lastTimePaused }

/-- `Ads._setMediaVolume` (part_003 lines 965–968). -/
def ads_setMediaVolume (volume : ℚ) (s : AdsState) : AdsState :=
  { s with mediaVolume := volume, mediaMuted := decide (volume = 0) }

/-- The fatal error codes of `Ads._error` (part_003 lines 705–708). -/
def adsFatalErrorCodes : List Int :=
  [100, 101, 102, 300, 301, 302, 303, 400, 401, 402, 403, 405,
   406, 407, 408, 409, 410, 500, 501, 502, 503, 900, 901, 1005]

/-- The fallback condition of `Ads._error` (part_003 line 709):
`Array.isArray(#ads) && #ads.length > 1 && #currentAdsIndex < #ads.length - 1`. -/
def adsFallbackCond (s : AdsState) : Bool :=
  adsIsArray s && decide ((adsLen s : Int) > 1) &&
    decide ((s.currentAdsIndex : Int) < (adsLen s : Int) - 1)

/-- The four field updates at the head of the fallback branch of
`Ads._error` (part_003 lines 710–713): advance the ad index by one, mark
play as triggered and ads as started but not done. -/
def adsFallbackMark (s : AdsState) : AdsState :=
  { s with currentAdsIndex := s.currentAdsIndex + 1, playTriggered := true,
           adsStarted := true, adsDone := false }

/-- `Ads._error` (part_003 lines 694–733): dispatch `playererror`; then
either fall back to the next ad tag (mark via `adsFallbackMark`, destroy,
reload with `force = true`, warn), or — when no further tag is available —
destroy the ads manager for a fatal error code (when a manager exists), log,
and resume the content media when autoplay was requested or ads had
started. -/
def ads_error (code : Int) (s : AdsState) : AdsState :=
  let s := logFx s (.dispatch "playererror")
  if adsFallbackCond s then
    logFx (ads_load true (ads_destroy (adsFallbackMark s))) .warn
  else
    let s :=
      if code ∈ adsFatalErrorCodes then
        let s := if s.adsManager then logFx s .managerDestroy else s
        logFx s .errorLog
      else logFx s .warn
    if s.autoStart || s.autoStartMuted || s.adsStarted then
      ads_resumeMedia { s with adsActive := false }
    else s

/-- `Ads._contentEndedListener` (part_003 lines 819–824). -/
def ads_contentEndedListener (s : AdsState) : AdsState :=
  logFx { s with adsEnded := true, adsActive := false, adsStarted := false } .contentComplete

/-- `Ads._onContentPauseRequested` (part_003 lines 825–836): store the
content media's current time in `#lastTimePaused`, pause the media when ads
had already started (otherwise just mark them started), dispatch `play`.
(The `removeEventListener('ended', ...bind(this))` call passes a fresh
bound function and removes nothing.) -/
def ads_onContentPauseRequested (s : AdsState) : AdsState :=
  let s := { s with lastTimePaused := s.mediaCurrentTime }
  let s :=
    if s.adsStarted then { s with mediaPaused := true }
    else { s with adsStarted := true }
  logFx s (.dispatch "play")

/-- `Ads._resetAdsAfterManualBreak` (part_003 lines 952–959). -/
def ads_resetAdsAfterManualBreak (s : AdsState) : AdsState :=
  let s := if s.adsManager then logFx s .managerDestroy else s
  let s := logFx s .contentComplete
  { s with adsDone := false, playTriggered := true }

/-- `Ads._loadedMetadataHandler` (part_003 lines 871–902): with an ads
array, advance the index and either request the next tag or prepare the
content media; with a single tag, prepare the content media once the
element is seekable past `#lastTimePaused`, retrying via `setTimeout`
while `seekable` is empty. -/
def ads_loadedMetadataHandler (s : AdsState) : AdsState :=
  match s.ads with
  | .many l =>
    let s := { s with currentAdsIndex := s.currentAdsIndex + 1 }
    if (s.currentAdsIndex : Int) ≤ (l.length : Int) - 1 then
      let s := if s.adsManager then logFx s .managerDestroy else s
      let s := logFx s .contentComplete
      let s := { s with playTriggered := true, adsStarted := true, adsDone := false }
      ads_requestAds s
    else
      let s := if !s.autoPlayAdBreaks then ads_resetAdsAfterManualBreak s else s
      ads_prepareMedia s
  | .single _ =>
    match s.seekableEnd with
    | some e =>
      if e > s.lastTimePaused then
        let s := if !s.autoPlayAdBreaks then ads_resetAdsAfterManualBreak s else s
        ads_prepareMedia s
      else s
    | none => logFx s .retryMetadata

/-- `Ads._onContentResumeRequested` (part_003 lines 837–870): with the
`loop` option, cycle the ad index and reload; otherwise register the
content listeners and hand playback back to the content media — directly
via `_prepareMedia` on iOS/Android, or by dispatching `loadedmetadata`
(which synchronously runs the just-registered `_loadedMetadataHandler`)
elsewhere. -/
def ads_onContentResumeRequested (s : AdsState) : AdsState :=
  if s.loop then
    let s :=
      match s.ads with
      | .many l =>
        if (s.currentAdsIndex : Int) = (l.length : Int) - 1 then { s with currentAdsIndex := 0 }
        else { s with currentAdsIndex := s.currentAdsIndex + 1 }
      | .single _ => s
    let s := ads_destroy s
    let s := logFx s .contentComplete
    let s := { s with playTriggered := true, adsStarted := true, adsDone := false }
    ads_load true s
  else
    if s.mobile then
      let s := { s with mediaSrc := s.mediaSources }
      let s := logFx s .mediaLoad
      ads_prepareMedia s
    else
      ads_loadedMetadataHandler (logFx s (.dispatch "loadedmetadata"))

/-- An SDK ad event as received by `Ads._assign`, with the data the handler
reads from it: linearity, and for `LOADED` the ad duration, for
`VOLUME_CHANGED` the SDK-side volume (`adsManager.getVolume()`). -/
inductive AdsEvent where
  | loaded (linear : Bool) (duration : ℚ)
  | started (linear : Bool)
  | complete (linear : Bool)
  | skipped (linear : Bool)
  | allAdsCompleted (linear : Bool)
  | click
  | volumeChanged (linear : Bool) (sdkVolume : ℚ)
  | volumeMuted (linear : Bool)
  | logEvent (hasAdError : Bool)
deriving DecidableEq, Repr

/-- The `google.ima.AdEvent.Type.*` string constants (external SDK values;
only used in the trailing `ads${event.type}` dispatch). -/
def adsEventTypeName : AdsEvent → String
  | .loaded _ _ => "loaded"
  | .started _ => "start"
  | .complete _ => "complete"
  | .skipped _ => "skip"
  | .allAdsCompleted _ => "allAdsCompleted"
  | .click => "click"
  | .volumeChanged _ _ => "volumeChange"
  | .volumeMuted _ => "mute"
  | .logEvent _ => "log"

/-- The `switch` of `Ads._assign` (part_003 lines 573–672). -/
def ads_assignSwitch (e : AdsEvent) (s : AdsState) : AdsState :=
  match e with
  | .loaded linear duration =>
    if !linear then ads_onContentResumeRequested s
    else
      let s := { s with adsDuration := duration, adsCurrentTime := duration }
      if !s.mediaStarted && !s.mobile then
        let s := logFx s (.dispatch "waiting")
        logFx s (.dispatch "loadedmetadata")
      else s
  | .started linear =>
    if linear then
      let s := if !s.mediaPaused then { s with mediaPaused := true } else s
      let s := { s with adsActive := true }
      let s := logFx s (.dispatch "play")
      let s :=
        if s.mediaEnded then logFx { s with adsEnded := false } (.dispatch "adsmediaended")
        else s
      { s with intervalTimer := 1 }
    else s
  | .complete linear =>
    if linear then
      logFx { s with adsActive := false } .clearTimer
    else s
  | .skipped linear =>
    if linear then
      let s := logFx s (.dispatch "adsskipped")
      logFx { s with adsActive := false } .clearTimer
    else s
  | .allAdsCompleted linear =>
    if linear then
      let s := { s with adsActive := false, adsEnded := true, intervalTimer := 0,
                        adsMuted := false, adsStarted := false, adsDuration := 0,
                        adsCurrentTime := 0 }
      let s := ads_destroy s
      if s.elementCurrentTime ≥ s.elementDuration then logFx s (.dispatch "ended") else s
    else s
  | .click => logFx s (.dispatch "pause")
  | .volumeChanged linear sdkVolume =>
    let vol := if s.adsManager then sdkVolume else s.originalVolume
    let s := ads_setMediaVolume vol s
    if linear then logFx s (.dispatch "volumechange") else s
  | .volumeMuted linear =>
    if linear then logFx s (.dispatch "volumechange") else s
  | .logEvent _ => s

/-- `Ads._assign` (part_003 lines 571–693): the `switch`, followed by the
trailing `LOG` handling (warn and dispatch `playererror` when the log event
carries an ad error) or, for every other event type, the
`ads${event.type}` dispatch. -/
def ads_assign (e : AdsEvent) (s : AdsState) : AdsState :=
  let s := ads_assignSwitch e s
  match e with
  | .logEvent hasAdError =>
    if hasAdError then logFx (logFx s .warn) (.dispatch "playererror") else s
  | _ => logFx s (.dispatch ("ads" ++ adsEventTypeName e))

/-- One step of the Ads event-handling step relation: an SDK ad event
handled by `_assign`, an ad error handled by `_error`, the content
pause/resume requests, the `loadedmetadata` and `ended` element listeners,
and a `load` call (the constructor schedules `load()`; the fallback paths
call `load(true)`). -/
inductive AdsStep where
  | sdk (e : AdsEvent)
  | adError (code : Int)
  | contentPause
  | contentResume
  | loadedMetadata
  | contentEnded
  | loadCall (force : Bool)
deriving DecidableEq, Repr

/-- The transition function of the step relation. -/
def ads_step (s : AdsState) : AdsStep → AdsState
  | .sdk e => ads_assign e s
  | .adError code => ads_error code s
  | .contentPause => ads_onContentPauseRequested s
  | .contentResume => ads_onContentResumeRequested s
  | .loadedMetadata => ads_loadedMetadataHandler s
  | .contentEnded => ads_contentEndedListener s
  | .loadCall force => ads_load force s

/-- The steps whose handling hands playback back to the content media
(reaching `_prepareMedia`/`_resumeMedia` without first clearing
`#adsActive`): a content-resume request, the `loadedmetadata` fallback, and
a non-linear `LOADED` event (which calls `_onContentResumeRequested`
directly). -/
def resumeTriggering : AdsStep → Bool
  | .contentResume => true
  | .loadedMetadata => true
  | .sdk (.loaded false _) => true
  | _ => false

/-- The field values established by the `Ads` constructor (part_003 lines
309–381); everything the constructor does not fix (content-media state,
options, platform) is a parameter. -/
def adsInit (ads : AdsSrc) (autoStart autoStartMuted loop autoPlayAdBreaks enablePreloading
    mobile mediaPaused mediaEnded : Bool) (mediaCurrentTime volume : ℚ)
    (mediaSrc : List String) (elementCurrentTime elementDuration : ℚ)
    (seekableEnd : Option ℚ) : AdsState :=
  { adsEnded := false, adsDone := false, adsActive := false, adsStarted := false,
    intervalTimer := 0, adsMuted := false, adsDuration := 0, adsCurrentTime := 0,
    adsManager := false, ads := ads, playTriggered := false, currentAdsIndex := 0,
    lastTimePaused := 0, mediaSources := [], mediaStarted := false,
    adsVolume := volume, originalVolume := volume,
    autoStart := autoStart, autoStartMuted := autoStartMuted, loop := loop,
    autoPlayAdBreaks := autoPlayAdBreaks, enablePreloading := enablePreloading,
    mobile := mobile, mediaPaused := mediaPaused, mediaEnded := mediaEnded,
    mediaCurrentTime := mediaCurrentTime, mediaVolume := volume, mediaMuted := false,
    mediaSrc := mediaSrc, elementCurrentTime := elementCurrentTime,
    elementDuration := elementDuration, seekableEnd := seekableEnd, log := [] }

/-- States reachable from `init` by event-handling steps. -/
inductive AdsReachable (init : AdsState) : AdsState → Prop where
  | refl : AdsReachable init init
  | step (s : AdsState) (e : AdsStep) : AdsReachable init s → AdsReachable init (ads_step s e)

/-- States reachable from `init` by event-handling steps in which
content-resume handling only runs while no ad is active. -/
inductive AdsGuardedReachable (init : AdsState) : AdsState → Prop where
  | refl : AdsGuardedReachable init init
  | step (s : AdsState) (e : AdsStep) : AdsGuardedReachable init s →
      (resumeTriggering e = true → s.adsActive = false) →
      AdsGuardedReachable init (ads_step s e)

/-! ## The WebVTT line parser (`Captions._getCuesFromText`) -/

/-- JS whitespace, as stripped by `String.prototype.trim` (space, tab,
line/paragraph separators, NBSP, BOM — the ones that can occur here). -/
def isJsSpace (c : Char) : Bool :=
  c = ' ' || c = '\t' || c = '\n' || c = '\r' || c = Char.ofNat 11 || c = Char.ofNat 12 ||
    c = Char.ofNat 160 || c = Char.ofNat 65279

/-- `String.prototype.trim`. -/
def jsTrim (s : String) : String :=
  String.mk (((s.data.dropWhile isJsSpace).reverse.dropWhile isJsSpace).reverse)

/-- `text.split(/\r?\n/)` (captions.ts line 463): split at each `\r\n` or
lone `\n`; a lone `\r` does not split. -/
def splitLinesChars (current : List Char) : List Char → List String
  | [] => [String.mk current.reverse]
  | '\r' :: '\n' :: rest => String.mk current.reverse :: splitLinesChars [] rest
  | '\n' :: rest => String.mk current.reverse :: splitLinesChars [] rest
  | c :: rest => splitLinesChars (c :: current) rest

/-- `text.split(/\r?\n/)`. -/
def splitLines (text : String) : List String :=
  splitLinesChars [] text.data

/-- Parse exactly `n` decimal digits. -/
def takeDigits : Nat → List Char → Option (List Char × List Char)
  | 0, cs => some ([], cs)
  | n + 1, c :: cs =>
    if c.isDigit then (takeDigits n cs).map (fun p => (c :: p.1, p.2)) else none
  | _ + 1, [] => none

/-- The alternatives of the optional hour group `(?:[0-9]{1,2}:)?`, in the
order a backtracking regex engine tries them: two digits and a colon, one
digit and a colon, nothing. -/
def hourCandidates (cs : List Char) : List (List Char × List Char) :=
  (match takeDigits 2 cs with
   | some (d, ':' :: r) => [(d ++ [':'], r)]
   | _ => []) ++
  (match takeDigits 1 cs with
   | some (d, ':' :: r) => [(d ++ [':'], r)]
   | _ => []) ++
  [([], cs)]

/-- The mandatory `[0-9]{2}:[0-9]{2}` part of a timecode. -/
def mmssParse (cs : List Char) : Option (List Char × List Char) :=
  match takeDigits 2 cs with
  | some (m, ':' :: r) => (takeDigits 2 r).map (fun p => (m ++ ':' :: p.1, p.2))
  | _ => none

/-- One alternative of the optional fraction group: `[,.]` followed by
exactly `len` digits. -/
def fracCandidate (len : Nat) : List Char → List (List Char × List Char)
  | c :: r =>
    if c = ',' || c = '.' then
      match takeDigits len r with
      | some (d, r2) => [(c :: d, r2)]
      | none => []
    else []
  | [] => []

/-- All parses of one timecode group
`((?:[0-9]{1,2}:)?[0-9]{2}:[0-9]{2}([,.][0-9]{...})?)` in backtracking
order (hour alternatives outermost, fraction lengths `fracLens` innermost,
the fraction-less parse last). -/
def timecodeCandidates (fracLens : List Nat) (cs : List Char) : List (List Char × List Char) :=
  (hourCandidates cs).flatMap (fun hc =>
    match mmssParse hc.2 with
    | some (ms, r2) =>
      (fracLens.flatMap (fun len => fracCandidate len r2)).map
          (fun fc => (hc.1 ++ ms ++ fc.1, fc.2)) ++
        [(hc.1 ++ ms, r2)]
    | none => [])

/-- The literal ` --> ` between the two timecodes. -/
def dropArrow : List Char → Option (List Char)
  | ' ' :: '-' :: '-' :: '>' :: ' ' :: r => some r
  | _ => none

/-- `regexp.exec(line)` for the timecode pattern of captions.ts lines
466–468:

```
^((?:[0-9]{1,2}:)?[0-9]{2}:[0-9]{2}([,.][0-9]{1,3})?) -->
 ((?:[0-9]{1,2}:)?[0-9]{2}:[0-9]{2}([,.][0-9]{3})?)(.*?)$
```

Returns the used capture groups `(timecode[1], timecode[3], timecode[5])`:
the two timecodes and the trailing text.  The candidate enumeration follows
the engine's backtracking order; after the second timecode, `(.*?)$` always
matches the remainder, so the first (greediest) parse of the second
timecode wins. -/
def timecodeExec (line : String) : Option (String × String × String) :=
  (timecodeCandidates [3, 2, 1] line.data).findSome? (fun tc1c =>
    match dropArrow tc1c.2 with
    | some r2 =>
      match timecodeCandidates [3] r2 with
      | [] => none
      | tc2c :: _ => some (String.mk tc1c.1, String.mk tc2c.1, String.mk tc2c.2)
    | none => none)

/-- Digit run to a natural number. -/
def digitsToNat (ds : List Char) : Nat :=
  ds.foldl (fun acc c => acc * 10 + (c.toNat - 48)) 0

/-- Split a timecode at its fraction separator (`.` or `,`). -/
def splitFrac : List Char → List Char × Option (List Char)
  | [] => ([], none)
  | c :: r =>
    if c = '.' || c = ',' then ([], some r)
    else
      let p := splitFrac r
      (c :: p.1, p.2)

/-- Split at each `:`. -/
def splitColon : List Char → List (List Char)
  | [] => [[]]
  | ':' :: r => [] :: splitColon r
  | c :: r =>
    match splitColon r with
    | f :: rest => (c :: f) :: rest
    | [] => [[c]]

/-- Modelled from the spec: `timeToSeconds` (src/js/utils/time.ts, not
among the provided sources) converts a timecode `(HH:)MM:SS(.mmm)` to
seconds: the colon-separated fields combine base-60
(`HH*3600 + MM*60 + SS`), and the fractional digits after `.` or `,`
contribute `frac / 10^digits`. -/
def timeToSeconds (timecode : String) : ℚ :=
  let p := splitFrac timecode.data
  let secs : Nat := (splitColon p.1).foldl (fun acc f => acc * 60 + digitsToNat f) 0
  (secs : ℚ) +
    (match p.2 with
     | some ds => mkRat (digitsToNat ds) (10 ^ ds.length)
     | none => 0)

/-- The characters of the class `[-A-Z0-9+&@#\/%?=~_|!:,.;]` under the `i`
flag (the body of a URL match in captions.ts line 465). -/
def urlBodyChar (c : Char) : Bool :=
  c.isAlpha || c.isDigit ||
    ['-', '+', '&', '@', '#', '/', '%', '?', '=', '~', '_', '|', '!', ':', ',', '.', ';'].contains c

/-- The characters of `[-A-Z0-9+&@#\/%=~_|]` under `i`: the required final
character of a URL match. -/
def urlEndChar (c : Char) : Bool :=
  c.isAlpha || c.isDigit ||
    ['-', '+', '&', '@', '#', '/', '%', '=', '~', '_', '|'].contains c

/-- A regex word character, for the `\b` boundary. -/
def wordChar (c : Char) : Bool :=
  c.isAlpha || c.isDigit || c = '_'

/-- Case-insensitive literal match: returns the matched original characters
and the rest. -/
def matchCI : List Char → List Char → Option (List Char × List Char)
  | [], cs => some ([], cs)
  | p :: ps, c :: cs =>
    if c.toLower = p then (matchCI ps cs).map (fun q => (c :: q.1, q.2)) else none
  | _ :: _, [] => none

/-- The alternatives of `(https?|ftp|file)` in backtracking order
(`https?` greedy first). -/
def schemeAlternatives : List (List Char) :=
  [['h', 't', 't', 'p', 's'], ['h', 't', 't', 'p'], ['f', 't', 'p'], ['f', 'i', 'l', 'e']]

/-- Longest prefix whose final character is a `urlEndChar` (the effect of
backtracking out of the greedy `[...]*` until the final mandatory
character class matches). -/
def dropTrailingNonEnd (l : List Char) : List Char :=
  (l.reverse.dropWhile (fun c => !urlEndChar c)).reverse

/-- Try to match the URL regex of captions.ts line 465 at the current
position (after the `\b` boundary has been checked): a scheme, `://`, a
greedy run of body characters backtracked to end on a `urlEndChar`. -/
def matchUrlAt (cs : List Char) : Option (List Char × List Char) :=
  schemeAlternatives.findSome? (fun sch =>
    match matchCI sch cs with
    | some (m1, r1) =>
      match matchCI [':', '/', '/'] r1 with
      | some (m2, r2) =>
        let body := r2.takeWhile urlBodyChar
        let rest := r2.drop body.length
        let trimmed := dropTrailingNonEnd body
        if trimmed.isEmpty then none
        else some (m1 ++ m2 ++ trimmed, body.drop trimmed.length ++ rest)
      | none => none
    | none => none)

/-- Single quote character (for the anchor markup below). -/
def sQuote : String := (Char.ofNat 39).toString

/-- The replacement template
`<a href='$1' target='_blank'>$1</a>` applied to a match `u`. -/
def anchorWrap (u : String) : String :=
  "<a href=" ++ sQuote ++ u ++ sQuote ++ " target=" ++ sQuote ++ "_blank" ++ sQuote ++ ">" ++
    u ++ "</a>"

/-- The global-replace scan of `cue.replace(urlRegexp, ...)`: try a match at
every position where a word boundary precedes, emit the replacement and
continue after the match.  `fuel` bounds the number of scan steps; every
step consumes at least one character, so `fuel = length` never runs out
(the `0` case returns the remaining input unchanged). -/
def urlReplaceScan (prev : Option Char) : Nat → List Char → List Char
  | _, [] => []
  | 0, cs => cs
  | fuel + 1, c :: cs =>
    let boundary :=
      match prev with
      | none => true
      | some p => !wordChar p
    if boundary then
      match matchUrlAt (c :: cs) with
      | some (m, rest) =>
        (anchorWrap (String.mk m)).data ++ urlReplaceScan (m.reverse.head?) fuel rest
      | none => c :: urlReplaceScan (some c) fuel cs
    else c :: urlReplaceScan (some c) fuel cs

/-- `cue.replace(urlRegexp, "<a href='$1' target='_blank'>$1</a>")`
(captions.ts lines 465, 502). -/
def urlReplace (s : String) : String :=
  String.mk (urlReplaceScan none s.data.length s.data)

/-- The cue entry pushed by captions.ts lines 505–511 (the `settings` field
aside): a start time of exactly 0 is replaced by 0.200, the text is trimmed
and URL-wrapped. -/
def mkCueEntry (tc1 tc2 : String) (ident : Option String) (text : String) : Cue :=
  { startTime := if timeToSeconds tc1 = 0 then mkRat 1 5 else timeToSeconds tc1,
    endTime := timeToSeconds tc2,
    identifier := ident,
    text := urlReplace (jsTrim text) }

mutual

/-- The `for` loop of `Captions._getCuesFromText` (captions.ts lines
487–514), as recursion over the remaining lines.  `prev` is `lines[i-1]`
(`none` at the first line), `identifier` the JS variable of the same name
(`none` while it is still `undefined`).  A timecode found on the last line
makes `cue = lines[i]` read `undefined`, so `cue.trim()` throws — the
`Except.error` case. -/
def cuesLoop (prev identifier : Option String) : List String → Except Unit (List Cue)
  | [] => Except.ok []
  | l :: rest =>
    match timecodeExec l with
    | none => cuesLoop (some l) (some "") rest
    | some tc =>
      let ident :=
        match prev with
        | some p => if p ≠ "" then some p else identifier
        | none => identifier
      match rest with
      | [] => Except.error ()
      | first :: rest2 => cueBlock tc.1 tc.2.1 ident first rest2

/-- The inner `while` loop collecting the (possibly multi-line) cue text
(captions.ts lines 496–501), followed by the push of the entry and the
continuation of the outer loop past the terminating empty line. -/
def cueBlock (tc1 tc2 : String) (ident : Option String) (cue : String) :
    List String → Except Unit (List Cue)
  | [] => Except.ok [mkCueEntry tc1 tc2 ident cue]
  | l :: rest =>
    if l ≠ "" then cueBlock tc1 tc2 ident (cue ++ "\n" ++ l) rest
    else (cuesLoop (some l) (some "") rest).map (fun es => mkCueEntry tc1 tc2 ident cue :: es)

end

/-- `Captions._getCuesFromText` (captions.ts lines 462–516), with a
`TypeError` modelled as `Except.error`. -/
def captions_getCuesFromText (webvttText : String) : Except Unit (List Cue) :=
  cuesLoop none none (splitLines webvttText)

/-- The value of the JS `identifier` variable whenever the loop head is
reached: `undefined` before the first iteration, `''` afterwards. -/
def identDefault : Option String → Option String
  | none => none
  | some _ => some ""

/-- Join lines with `\n` onto an initial accumulator. -/
def joinOnto (acc : String) (ls : List String) : String :=
  ls.foldl (fun a x => a ++ "\n" ++ x) acc

/-- Termination measure fact: dropping a while-prefix and one more element
strictly shrinks a list (used by the parsers below to step past the empty
line that ends a cue block). -/
def dropWhileConsLengthLt {α : Type} (p : α → Bool) {l t : List α} {a : α}
    (h : l.dropWhile p = a :: t) : t.length < l.length := by
  have hle := (List.dropWhile_sublist (l := l) p).length_le
  rw [h] at hle
  simp at hle
  omega

mutual

/-- Declarative reference for the amended claim: parse block-by-block,
taking the cue text as the first following line plus the subsequent lines
up to the next empty line, and the identifier as the immediately preceding
line when it is non-empty. -/
def cuesRef (prev : Option String) (ls : List String) : Except Unit (List Cue) :=
  match ls with
  | [] => Except.ok []
  | l :: rest =>
    match timecodeExec l with
    | none => cuesRef (some l) rest
    | some tc =>
      match rest with
      | [] => Except.error ()
      | first :: rest2 => refBlock tc.1 tc.2.1 prev first rest2
termination_by ls.length
decreasing_by
  · simp
  · simp
    omega

/-- Block completion for the reference parser: span off the non-empty
lines, build the entry, continue after the empty line. -/
def refBlock (tc1 tc2 : String) (ident : Option String) (acc : String)
    (ls : List String) : Except Unit (List Cue) :=
  let taken := ls.takeWhile (fun x => x ≠ "")
  let entry := mkCueEntry tc1 tc2 ident (joinOnto acc taken)
  match hdrop : ls.dropWhile (fun x => x ≠ "") with
  | [] => Except.ok [entry]
  | _ :: rest4 => (cuesRef (some "") rest4).map (fun es => entry :: es)
termination_by ls.length
decreasing_by
  exact dropWhileConsLengthLt _ hdrop

end

/-- The reference parser over a whole text. -/
def captions_getCuesFromTextRef (webvttText : String) : Except Unit (List Cue) :=
  cuesRef none (splitLines webvttText)

/-- The parser as the original claim describes it (for the counterexample):
startTime is the plain parsed first timecode (no 0.2 replacement), the text
is the raw concatenation of the following lines up to the next empty line
(no trim, no URL wrapping), the identifier is the immediately preceding
non-empty line when there is one, and every input yields a cue list (no
failure case). -/
def cuesClaim (prev : Option String) (ls : List String) : List Cue :=
  match ls with
  | [] => []
  | l :: rest =>
    match timecodeExec l with
    | none => cuesClaim (some l) rest
    | some tc =>
      let ident :=
        match prev with
        | some p => if p ≠ "" then some p else none
        | none => none
      let taken := rest.takeWhile (fun x => x ≠ "")
      let entry : Cue :=
        { startTime := timeToSeconds tc.1, endTime := timeToSeconds tc.2.1,
          identifier := ident,
          text :=
            match taken with
            | [] => ""
            | t :: ts => joinOnto t ts }
      match hdrop : rest.dropWhile (fun x => x ≠ "") with
      | [] => [entry]
      | _ :: rest4 => entry :: cuesClaim (some "") rest4
termination_by ls.length
decreasing_by
  · simp
  · have := dropWhileConsLengthLt _ hdrop
    simp
    omega

/-- The claim's parser over a whole text. -/
def captions_getCuesFromTextClaim (webvttText : String) : List Cue :=
  cuesClaim none (splitLines webvttText)

/-! ## The caption sanitizer (`Captions._sanitize`)

`_sanitize` parses the caption text into a detached `div` and then works on
the resulting DOM.  The embedding starts from the parsed DOM, represented
by its pre-order traversal: each element contributes one entry carrying its
tree depth below the `div`, its tag name and its attribute list (an
element's subtree is exactly the maximal run of following entries of
greater depth; text nodes take no part in `getElementsByTagName`
collections, attribute tests or removals, so they are omitted), and the
function's result is the final element list of the `div` (whose `innerHTML`
serialization the code returns).  `getElementsByTagName('*')` returns a
*live* collection in document (pre-order) order — exactly this list — so
every `allElements[index]` / `scripts[i]` access is re-evaluated against
the current list. -/

/-- One DOM element of the parsed caption `div`, in pre-order position:
depth below the `div`, tag name, and attributes in document order. -/
structure DomElem where
  depth : Nat
  tag : String
  attrs : List (String × String)
deriving DecidableEq, Repr

/-- `removeElement(allElements[k])`: drop the `k`-th element together with
its whole subtree (the following entries of greater depth), as
`parentNode.removeChild` does. -/
def removeNthForest : List DomElem → Nat → List DomElem
  | [], _ => []
  | e :: rest, 0 => rest.dropWhile (fun x => e.depth < x.depth)
  | e :: rest, k + 1 => e :: removeNthForest rest k

/-- `allElements[k].removeAttribute('style')`: drop the `style` attribute
of the `k`-th element. -/
def removeStyleNth : List DomElem → Nat → List DomElem
  | [], _ => []
  | e :: rest, 0 => { e with attrs := e.attrs.filter (fun p => p.1 ≠ "style") } :: rest
  | e :: rest, k + 1 => e :: removeStyleNth rest k

/-- The length of the live `getElementsByTagName(tag)` collection over the
current tree. -/
def countTag (tg : String) (f : List DomElem) : Nat :=
  (f.filter (fun e => e.tag = tg)).length

/-- `removeElement(scripts[k])`: drop the `k`-th element of the live
`getElementsByTagName(tag)` collection together with its subtree (a removed
script takes any scripts nested below it along). -/
def removeNthTag (tg : String) : List DomElem → Nat → List DomElem
  | [], _ => []
  | e :: rest, k =>
    if e.tag = tg then
      match k with
      | 0 => rest.dropWhile (fun x => e.depth < x.depth)
      | k + 1 => e :: removeNthTag tg rest k
    else e :: removeNthTag tg rest k

/-- Modelled from the spec: `removeElement` (src/js/utils/general.ts, not
among the provided sources) removes a node from its parent after checking
that the node and its parent exist, so calling it on an `undefined`
collection entry is a no-op rather than a throw. -/
def removeElementAt (f : List DomElem) (k : Nat) : List DomElem :=
  if k < f.length then removeNthForest f k else f

/-- The `while (i--) removeElement(scripts[i])` loop of captions.ts lines
620–623: `i` runs from the cached initial length down to 0, each step
removing `scripts[i]` from the live collection (a no-op once `i` is out of
range). -/
def scriptLoop : List DomElem → Nat → List DomElem
  | f, 0 => f
  | f, i + 1 =>
    let f2 := if i < countTag "script" f then removeNthTag "script" f i else f
    scriptLoop f2 i

/-- Character-list prefix test, for the regex anchor `^`. -/
def startsWithChars : List Char → List Char → Bool
  | [], _ => true
  | _ :: _, [] => false
  | p :: ps, c :: cs => p = c && startsWithChars ps cs

/-- `/^(on|javascript:)/.test(name)` (captions.ts line 632). -/
def attrNameFlagged (name : String) : Bool :=
  startsWithChars "on".data name.data || startsWithChars "javascript:".data name.data

/-- The inner `for (j ...)` loop over the *static* attribute copy
`Array.prototype.slice.call(attributesObj)` of captions.ts lines 631–637.
Both branches re-index the live collection: a flagged name removes
`allElements[index]` (whatever element now sits there — a no-op when the
index has fallen out of range), and a `style` name calls
`allElements[index].removeAttribute`, which throws on `undefined` when the
index is out of range — the `Except.error` case. -/
def sanitizeAttrs (index : Nat) : List (String × String) → List DomElem →
    Except Unit (List DomElem)
  | [], f => Except.ok f
  | (name, _) :: rest, f =>
    if attrNameFlagged name then
      sanitizeAttrs index rest (removeElementAt f index)
    else if name = "style" then
      if index < f.length then
        sanitizeAttrs index rest (removeStyleNth f index)
      else Except.error ()
    else sanitizeAttrs index rest f

/-- The outer `for (index = 0, n = allElements.length; index < n; index++)`
loop of captions.ts lines 628–638.  `n` is cached before the loop while
`allElements` stays live, so after a removal the tail indices overrun the
shrunken collection and `allElements[index].attributes` throws on
`undefined` — the `Except.error` case.  `remaining` counts the iterations
left (`n - index`). -/
def sanitizeLoop : Nat → Nat → List DomElem → Except Unit (List DomElem)
  | 0, _, f => Except.ok f
  | r + 1, index, f =>
    match f.get? index with
    | none => Except.error ()
    | some e =>
      match sanitizeAttrs index e.attrs f with
      | Except.error u => Except.error u
      | Except.ok f2 => sanitizeLoop r (index + 1) f2

/-- `Captions._sanitize` (captions.ts lines 614–641) from the parsed DOM
on: first remove every `<script>` (backwards over the live collection),
then run the attribute loop over all remaining elements with the cached
length `n`; the result is the final element list of the `div`, and
`Except.error` marks the `TypeError` raised by indexing the live collection
past its current length. -/
def captions_sanitize (f : List DomElem) : Except Unit (List DomElem) :=
  let f1 := scriptLoop f (countTag "script" f)
  sanitizeLoop f1.length 0 f1

/-! ### Lemmas about the binary search -/

lemma searchLoop_single_stuck (c : Cue) (t : ℚ) (h1 : c.startTime = t) (h2 : c.endTime ≤ t) :
    ∀ fuel, searchLoop [c] t fuel 0 0 = none := by
  intro fuel
  induction fuel with
  | zero => rfl
  | succ n ih =>
    rw [searchLoop]
    have hg : ¬ (t ≥ c.startTime ∧ t < c.endTime) := by
      rintro ⟨-, hlt⟩
      exact absurd (hlt.trans_le h2) (lt_irrefl t)
    have hmid : ((0 : Int) + 0) / 2 = 0 := by decide
    simp only [hmid, if_pos (le_refl (0 : Int)), Int.toNat_zero, List.getD_cons_zero]
    rw [if_neg hg, if_neg (by rw [h1]; exact lt_irrefl t), if_neg (by rw [h1]; exact lt_irrefl t)]
    exact ih

lemma cueContains_of_guard {c : Cue} {t : ℚ} (h : t ≥ c.startTime ∧ t < c.endTime) :
    cueContains c t := ⟨h.1, h.2⟩

lemma searchLoop_correct (tracks : List Cue) (t : ℚ)
    (hsorted : cuesSorted tracks) (hsep : cuesNonOverlapping tracks)
    (hne : ∀ c ∈ tracks, c.startTime < c.endTime) :
    ∀ fuel (low high : Int), 0 ≤ low → high < (tracks.length : Int) →
      (∀ j : Fin tracks.length, cueContains (tracks.get j) t →
        low ≤ (j : Int) ∧ (j : Int) ≤ high) →
      (high + 1 - low).toNat < fuel →
      (∃ i : Fin tracks.length,
          searchLoop tracks t fuel low high = some ((i : Nat) : Int) ∧
          cueContains (tracks.get i) t) ∨
      (searchLoop tracks t fuel low high = some (-1) ∧
        ∀ j : Fin tracks.length, ¬ cueContains (tracks.get j) t) := by
  intro fuel
  induction fuel with
  | zero => intro low high _ _ _ hfuel; omega
  | succ n ih =>
    intro low high hlow hhigh hinv hfuel
    simp only [searchLoop]
    by_cases hlh : low ≤ high
    · rw [if_pos hlh]
      have hmidlo : low ≤ (low + high) / 2 := by omega
      have hmidhi : (low + high) / 2 ≤ high := by omega
      set mid : Int := (low + high) / 2 with hmiddef
      have hmidnn : 0 ≤ mid := le_trans hlow hmidlo
      have hmidlt : mid.toNat < tracks.length := by omega
      have hmidcast : ((mid.toNat : Nat) : Int) = mid := Int.toNat_of_nonneg hmidnn
      have hget : tracks.getD mid.toNat ⟨0, 0, none, ""⟩ = tracks.get ⟨mid.toNat, hmidlt⟩ := by
        simp [List.getD_eq_getElem?_getD, List.getElem?_eq_getElem hmidlt]
      rw [hget]
      set c := tracks.get ⟨mid.toNat, hmidlt⟩ with hcdef
      by_cases hguard : t ≥ c.startTime ∧ t < c.endTime
      · rw [if_pos hguard]
        exact Or.inl ⟨⟨mid.toNat, hmidlt⟩, by rw [hmidcast], cueContains_of_guard hguard⟩
      · rw [if_neg hguard]
        by_cases hlt : c.startTime < t
        · rw [if_pos hlt]
          refine ih (mid + 1) high (by omega) hhigh ?_ (by omega)
          intro j hj
          rcases hinv j hj with ⟨hj1, hj2⟩
          refine ⟨?_, hj2⟩
          rcases lt_trichotomy ((j : Nat) : Int) mid with hcase | hcase | hcase
          · exfalso
            have hjlt : (j : Nat) < mid.toNat := by omega
            have := List.pairwise_iff_get.mp hsep j ⟨mid.toNat, hmidlt⟩ hjlt
            exact absurd (hj.2.trans_le this) (not_lt.mpr (le_of_lt hlt))
          · exfalso
            apply hguard
            have hjeq : j = ⟨mid.toNat, hmidlt⟩ := Fin.ext (show (j : Nat) = mid.toNat by omega)
            rw [hjeq] at hj
            exact ⟨hj.1, hj.2⟩
          · omega
        · rw [if_neg hlt]
          by_cases hgt : c.startTime > t
          · rw [if_pos hgt]
            refine ih low (mid - 1) hlow (by omega) ?_ (by omega)
            intro j hj
            rcases hinv j hj with ⟨hj1, hj2⟩
            refine ⟨hj1, ?_⟩
            rcases lt_trichotomy ((j : Nat) : Int) mid with hcase | hcase | hcase
            · omega
            · exfalso
              apply hguard
              have hjeq : j = ⟨mid.toNat, hmidlt⟩ := Fin.ext (show (j : Nat) = mid.toNat by omega)
              rw [hjeq] at hj
              exact ⟨hj.1, hj.2⟩
            · exfalso
              have hjgt : mid.toNat < (j : Nat) := by omega
              have := List.pairwise_iff_get.mp hsorted ⟨mid.toNat, hmidlt⟩ j hjgt
              exact absurd (lt_of_lt_of_le hgt (this.trans hj.1)) (lt_irrefl t)
          · exfalso
            have hstle : c.startTime ≤ t := not_lt.mp hgt
            have htle : t ≤ c.startTime := not_lt.mp hlt
            have heq : c.startTime = t := le_antisymm hstle htle
            have hmem : c ∈ tracks := by
              rw [hcdef]
              exact tracks.get_mem _ _
            exact hguard ⟨hstle, heq ▸ hne c hmem⟩
    · rw [if_neg hlh]
      refine Or.inr ⟨rfl, fun j hj => ?_⟩
      rcases hinv j hj with ⟨hj1, hj2⟩
      omega

lemma captions_search_single (c : Cue) (t : ℚ) (fuel : Nat) :
    captions_search [c] t fuel = searchLoop [c] t fuel 0 0 := by
  simp [captions_search]

/-- Claim C8: the claim states that `Captions._search` terminates for every
input, in particular when the list contains a cue with `startTime` equal to
the queried time and `endTime` not strictly greater.  The code refutes this:
on the single zero-length cue `[3, 3)` queried at time 3, no branch of the
loop body fires, `low` and `high` never change, and the loop spins forever —
the embedding returns `none` for every amount of fuel. -/
theorem captions_search_nonterminating : searchDiverges [⟨3, 3, none, ""⟩] 3 := by
  intro fuel
  rw [captions_search_single]
  exact searchLoop_single_stuck _ _ rfl le_rfl fuel

/-- Claim C1 counterexample: the cue list `[[5, 5)]` is sorted by
`startTime` and non-overlapping, no cue interval contains the time 5, yet
`Captions._search` does not return -1 — it does not return at all (the loop
spins forever, refuting the claim as stated, which requires -1 whenever no
cue contains the queried time). -/
theorem captions_search_claim_counterexample :
    cuesSorted [⟨5, 5, none, ""⟩] ∧ cuesNonOverlapping [⟨5, 5, none, ""⟩] ∧
    (∀ c ∈ [(⟨5, 5, none, ""⟩ : Cue)], ¬ cueContains c 5) ∧
    searchNeverReturns [⟨5, 5, none, ""⟩] 5 (-1) := by
  refine ⟨by simp [cuesSorted], by simp [cuesNonOverlapping], by decide, ?_⟩
  intro fuel hcontra
  rw [captions_search_single] at hcontra
  rw [searchLoop_single_stuck ⟨5, 5, none, ""⟩ 5 rfl le_rfl fuel] at hcontra
  exact Option.noConfusion hcontra

/-- Claim C1 (amended): for every cue list sorted in ascending order by
`startTime`, with non-overlapping time intervals, **and with every cue
interval non-empty** (`startTime < endTime` — without this the search can
spin forever, see the counterexample), and every time `t`:
`Captions._search` terminates (here: within `length + 1` iterations) and
returns an index `i` with `tracks[i].startTime ≤ t < tracks[i].endTime`
whenever such a cue exists, and returns -1 when no cue interval contains
`t`. -/
theorem captions_search_correct (tracks : List Cue) (t : ℚ)
    (hsorted : cuesSorted tracks) (hsep : cuesNonOverlapping tracks)
    (hne : ∀ c ∈ tracks, c.startTime < c.endTime) :
    (∃ i : Fin tracks.length,
        captions_search tracks t (tracks.length + 1) = some ((i : Nat) : Int) ∧
        cueContains (tracks.get i) t) ∨
    (captions_search tracks t (tracks.length + 1) = some (-1) ∧
      ∀ c ∈ tracks, ¬ cueContains c t) := by
  have h := searchLoop_correct tracks t hsorted hsep hne (tracks.length + 1) 0
    ((tracks.length : Int) - 1) le_rfl (by omega)
    (fun j _ => by have := j.isLt; omega) (by omega)
  rcases h with ⟨i, h1, h2⟩ | ⟨h1, h2⟩
  · exact Or.inl ⟨i, h1, h2⟩
  · refine Or.inr ⟨h1, fun c hc => ?_⟩
    rcases List.mem_iff_get.mp hc with ⟨j, rfl⟩
    exact h2 j

/-- Claim C1 witness: the amended theorem applied to the concrete sorted,
non-overlapping, non-degenerate cue list `[[1,2), [2,3)]` at time 2. -/
theorem captions_search_correct_witness :
    (∃ i : Fin ([⟨1, 2, none, "a"⟩, ⟨2, 3, none, "b"⟩] : List Cue).length,
        captions_search [⟨1, 2, none, "a"⟩, ⟨2, 3, none, "b"⟩] 2
            (([⟨1, 2, none, "a"⟩, ⟨2, 3, none, "b"⟩] : List Cue).length + 1) =
          some ((i : Nat) : Int) ∧
        cueContains (([⟨1, 2, none, "a"⟩, ⟨2, 3, none, "b"⟩] : List Cue).get i) 2) ∨
    (captions_search [⟨1, 2, none, "a"⟩, ⟨2, 3, none, "b"⟩] 2
          (([⟨1, 2, none, "a"⟩, ⟨2, 3, none, "b"⟩] : List Cue).length + 1) =
        some (-1) ∧
      ∀ c ∈ ([⟨1, 2, none, "a"⟩, ⟨2, 3, none, "b"⟩] : List Cue), ¬ cueContains c 2) :=
  captions_search_correct _ 2 (by decide) (by decide) (by decide)

/-! ### Lemmas and theorems about the Media facade -/

lemma invokeLoop_ne_none (canPlay : MediaSource → Bool) :
    ∀ (files : List MediaSource) (acc : Option MediaSource),
      files ≠ [] → invokeLoop canPlay files acc ≠ none := by
  intro files
  induction files with
  | nil => intro acc h; exact absurd rfl h
  | cons f rest ih =>
    intro acc _
    rw [invokeLoop]
    by_cases hcp : canPlay f
    · simp [hcp]
    · rw [if_neg hcp]
      rcases rest with - | ⟨g, rest'⟩
      · rw [invokeLoop]; simp
      · exact ih (some f) (by simp)

lemma applyMediaFilesOp_ne_nil (files : List MediaSource) (op : MediaFilesOp)
    (_hf : files ≠ []) (h1 : op ≠ .setMediaFiles []) (h2 : op ≠ .setSrc (.arr [])) :
    applyMediaFilesOp files op ≠ [] := by
  cases op with
  | setSrc a =>
    cases a with
    | str s => simp [applyMediaFilesOp, media_setSrcFiles]
    | arr l =>
      simp only [applyMediaFilesOp, media_setSrcFiles]
      intro hl
      exact h2 (by rw [hl])
    | obj o => simp [applyMediaFilesOp, media_setSrcFiles]
  | setMediaFiles l =>
    simp only [applyMediaFilesOp]
    intro hl
    exact h1 (by rw [hl])

lemma applyMediaFilesOps_ne_nil (ops : List MediaFilesOp) :
    ∀ files : List MediaSource, files ≠ [] →
      (∀ op ∈ ops, op ≠ .setMediaFiles [] ∧ op ≠ .setSrc (.arr [])) →
      applyMediaFilesOps files ops ≠ [] := by
  induction ops with
  | nil => intro files hf _; exact hf
  | cons op rest ih =>
    intro files hf hops
    have h1 := (hops op (List.mem_cons_self _ _)).1
    have h2 := (hops op (List.mem_cons_self _ _)).2
    exact ih (applyMediaFilesOp files op)
      (applyMediaFilesOp_ne_nil files op hf h1 h2)
      (fun o ho => hops o (List.mem_cons_of_mem _ ho))

lemma media_getMediaFiles_ne_nil (el : MediaElement) : media_getMediaFiles el ≠ [] := by
  rw [media_getMediaFiles]
  by_cases h : ((if el.src ≠ "" then [(⟨el.src, attrOrPredict el.typeAttr el.src⟩ : MediaSource)] else []) ++
      el.sourceTags.map (fun tag => (⟨tag.src, attrOrPredict tag.typeAttr tag.src⟩ : MediaSource))).isEmpty
  · simp only [h, if_pos]; simp
  · simp only [h, if_neg, Bool.false_eq_true, not_false_eq_true]
    intro hc
    rw [hc] at h
    exact h rfl

/-- Claim C7: a `Level` is a rendition descriptor with exactly the fields
`height`, `id` and `label`, and with no backend media set the `levels`
getter returns the empty list, the `level` getter returns -1, and the
`level` setter leaves the state unchanged. -/
theorem media_level_defaults (s : MediaState) (v : ℚ) (h : s.media = none) :
    media_levelsGet s = [] ∧ media_levelGet s = -1 ∧ media_levelSet s v = s ∧
    ∀ l : Level, l = ⟨l.height, l.id, l.label⟩ := by
  refine ⟨?_, ?_, ?_, fun l => rfl⟩ <;>
    simp [media_levelsGet, media_levelGet, media_levelSet, h]

/-- Claim C7 witness: the theorem applied to the concrete backend-less
state with one queued file. -/
theorem media_level_defaults_witness :
    media_levelsGet ⟨none, [⟨"v.mp4", "video/mp4"⟩]⟩ = [] ∧
    media_levelGet ⟨none, [⟨"v.mp4", "video/mp4"⟩]⟩ = -1 ∧
    media_levelSet ⟨none, [⟨"v.mp4", "video/mp4"⟩]⟩ 2 = ⟨none, [⟨"v.mp4", "video/mp4"⟩]⟩ ∧
    ∀ l : Level, l = ⟨l.height, l.id, l.label⟩ :=
  media_level_defaults ⟨none, [⟨"v.mp4", "video/mp4"⟩]⟩ 2 rfl

/-- Claim C9 counterexample: the error branch is reachable without ever
passing an empty array to the `mediaFiles` setter: assigning an empty
array to the `src` setter replaces `#files` with the empty list (the
setter throws while dereferencing `#files[0]` afterwards, but `#files` has
already been replaced), after which `Media.load` throws
`TypeError('Media not set')`. -/
theorem media_load_claim_counterexample :
    media_load (fun _ => true)
        (applyMediaFilesOps (media_getMediaFiles ⟨"v.mp4", none, []⟩)
          [.setSrc (.arr [])]) =
      Except.error "Media not set" ∧
    MediaFilesOp.setMediaFiles [] ∉ [MediaFilesOp.setSrc (.arr [])] := by
  exact ⟨rfl, by decide⟩

/-- Claim C9 (amended): `Media.load` throws `TypeError('Media not set')` if
and only if the internal files list is empty (and with a non-empty list the
modelled fragment of `load` succeeds — in particular the
`'Media cannot be played...'` branch is dead); after construction the files
list built by `Media._getMediaFiles` is always non-empty (with no `src` and
no source tags a placeholder entry with empty `src` is pushed); and the
error branch is reachable only if the `mediaFiles` setter **or the `src`
setter** is later given an empty array. -/
theorem media_load_notSet_iff_empty :
    (∀ (canPlay : MediaSource → Bool) (files : List MediaSource),
        media_load canPlay files = Except.error "Media not set" ↔ files = []) ∧
    (∀ (canPlay : MediaSource → Bool) (files : List MediaSource), files ≠ [] →
        ∃ m, media_load canPlay files = Except.ok m) ∧
    (∀ el : MediaElement, media_getMediaFiles el ≠ []) ∧
    (∀ el : MediaElement, el.src = "" → el.sourceTags = [] →
        media_getMediaFiles el = [⟨"", predictType ""⟩]) ∧
    (∀ (canPlay : MediaSource → Bool) (el : MediaElement) (ops : List MediaFilesOp),
        media_load canPlay (applyMediaFilesOps (media_getMediaFiles el) ops) =
            Except.error "Media not set" →
        ∃ op ∈ ops, op = .setMediaFiles [] ∨ op = .setSrc (.arr [])) := by
  have hok : ∀ (canPlay : MediaSource → Bool) (files : List MediaSource), files ≠ [] →
      ∃ m, media_load canPlay files = Except.ok m := by
    intro canPlay files hf
    rw [media_load, if_neg (by simpa [List.length_eq_zero] using hf)]
    rcases hinv : invokeLoop canPlay files none with - | m
    · exact absurd hinv (invokeLoop_ne_none canPlay files none hf)
    · exact ⟨m, rfl⟩
  refine ⟨?_, hok, media_getMediaFiles_ne_nil, ?_, ?_⟩
  · intro canPlay files
    constructor
    · intro h
      by_contra hne
      rcases hok canPlay files hne with ⟨m, hm⟩
      rw [hm] at h
      exact Except.noConfusion h
    · intro h
      rw [h, media_load]
      rfl
  · intro el h1 h2
    rw [media_getMediaFiles]
    simp [h1, h2]
  · intro canPlay el ops hload
    by_contra hno
    push_neg at hno
    have hne := applyMediaFilesOps_ne_nil ops (media_getMediaFiles el)
      (media_getMediaFiles_ne_nil el)
      (fun op ho => by
        rcases hno op ho with ⟨ha, hb⟩
        exact ⟨ha, hb⟩)
    rcases hok canPlay _ hne with ⟨m, hm⟩
    rw [hm] at hload
    exact Except.noConfusion hload

/-- Claim C9 witness: the amended theorem applied to concrete inputs — a
bare element yields the placeholder list, `load` on it succeeds, `load`
after `mediaFiles := []` fails with `'Media not set'`, and the failing run
exhibits the required empty-array setter call. -/
theorem media_load_notSet_iff_empty_witness :
    (media_load (fun _ => true) [] = Except.error "Media not set") ∧
    media_getMediaFiles ⟨"", none, []⟩ = [⟨"", predictType ""⟩] ∧
    (∃ op ∈ [MediaFilesOp.setMediaFiles []],
        op = MediaFilesOp.setMediaFiles [] ∨ op = .setSrc (.arr [])) := by
  refine ⟨(media_load_notSet_iff_empty.1 _ []).mpr rfl,
    media_load_notSet_iff_empty.2.2.2.1 ⟨"", none, []⟩ rfl rfl,
    media_load_notSet_iff_empty.2.2.2.2 (fun _ => true) ⟨"", none, []⟩
      [MediaFilesOp.setMediaFiles []] rfl⟩

/-- Claim C6: the claim states that every listener registered by
`Fullscreen.create` is removed by `Fullscreen.destroy` using the same
listener function, so that after `create` followed by `destroy` no listener
added by `create` remains attached.  The code refutes this: every
`removeEventListener` call in `destroy` passes a fresh `.bind(this)` result
(or a fresh arrow function), never the object registered by `create`, so
every removal is a no-op — after `create` then `destroy` (iPhone path, so
all listener kinds named by the claim are present) all eight listeners
added by `create` are still attached. -/
theorem fullscreen_destroy_leaves_listeners :
    (fullscreen_destroy true (fullscreen_create true ⟨[], 0⟩)).listeners =
      (fullscreen_create true ⟨[], 0⟩).listeners ∧
    (fullscreen_create true ⟨[], 0⟩).listeners.length = 8 := by
  constructor
  · rfl
  · rfl

/-! ### Lemmas about the Ads component -/

/-- The effects appended to the log between state `s` and a later state
`r`. -/
def adsNewLog (s r : AdsState) : List AdsFx :=
  r.log.drop s.log.length

@[simp] lemma logFx_adsEnded (s : AdsState) (e : AdsFx) : (logFx s e).adsEnded = s.adsEnded := rfl
@[simp] lemma logFx_adsDone (s : AdsState) (e : AdsFx) : (logFx s e).adsDone = s.adsDone := rfl
@[simp] lemma logFx_adsActive (s : AdsState) (e : AdsFx) : (logFx s e).adsActive = s.adsActive := rfl
@[simp] lemma logFx_adsStarted (s : AdsState) (e : AdsFx) : (logFx s e).adsStarted = s.adsStarted := rfl
@[simp] lemma logFx_intervalTimer (s : AdsState) (e : AdsFx) : (logFx s e).intervalTimer = s.intervalTimer := rfl
@[simp] lemma logFx_adsMuted (s : AdsState) (e : AdsFx) : (logFx s e).adsMuted = s.adsMuted := rfl
@[simp] lemma logFx_adsDuration (s : AdsState) (e : AdsFx) : (logFx s e).adsDuration = s.adsDuration := rfl
@[simp] lemma logFx_adsCurrentTime (s : AdsState) (e : AdsFx) : (logFx s e).adsCurrentTime = s.adsCurrentTime := rfl
@[simp] lemma logFx_adsManager (s : AdsState) (e : AdsFx) : (logFx s e).adsManager = s.adsManager := rfl
@[simp] lemma logFx_ads (s : AdsState) (e : AdsFx) : (logFx s e).ads = s.ads := rfl
@[simp] lemma logFx_playTriggered (s : AdsState) (e : AdsFx) : (logFx s e).playTriggered = s.playTriggered := rfl
@[simp] lemma logFx_currentAdsIndex (s : AdsState) (e : AdsFx) : (logFx s e).currentAdsIndex = s.currentAdsIndex := rfl
@[simp] lemma logFx_lastTimePaused (s : AdsState) (e : AdsFx) : (logFx s e).lastTimePaused = s.lastTimePaused := rfl
@[simp] lemma logFx_mediaSources (s : AdsState) (e : AdsFx) : (logFx s e).mediaSources = s.mediaSources := rfl
@[simp] lemma logFx_mediaStarted (s : AdsState) (e : AdsFx) : (logFx s e).mediaStarted = s.mediaStarted := rfl
@[simp] lemma logFx_adsVolume (s : AdsState) (e : AdsFx) : (logFx s e).adsVolume = s.adsVolume := rfl
@[simp] lemma logFx_originalVolume (s : AdsState) (e : AdsFx) : (logFx s e).originalVolume = s.originalVolume := rfl
@[simp] lemma logFx_autoStart (s : AdsState) (e : AdsFx) : (logFx s e).autoStart = s.autoStart := rfl
@[simp] lemma logFx_autoStartMuted (s : AdsState) (e : AdsFx) : (logFx s e).autoStartMuted = s.autoStartMuted := rfl
@[simp] lemma logFx_loop (s : AdsState) (e : AdsFx) : (logFx s e).loop = s.loop := rfl
@[simp] lemma logFx_autoPlayAdBreaks (s : AdsState) (e : AdsFx) : (logFx s e).autoPlayAdBreaks = s.autoPlayAdBreaks := rfl
@[simp] lemma logFx_enablePreloading (s : AdsState) (e : AdsFx) : (logFx s e).enablePreloading = s.enablePreloading := rfl
@[simp] lemma logFx_mobile (s : AdsState) (e : AdsFx) : (logFx s e).mobile = s.mobile := rfl
@[simp] lemma logFx_mediaPaused (s : AdsState) (e : AdsFx) : (logFx s e).mediaPaused = s.mediaPaused := rfl
@[simp] lemma logFx_mediaEnded (s : AdsState) (e : AdsFx) : (logFx s e).mediaEnded = s.mediaEnded := rfl
@[simp] lemma logFx_mediaCurrentTime (s : AdsState) (e : AdsFx) : (logFx s e).mediaCurrentTime = s.mediaCurrentTime := rfl
@[simp] lemma logFx_mediaVolume (s : AdsState) (e : AdsFx) : (logFx s e).mediaVolume = s.mediaVolume := rfl
@[simp] lemma logFx_mediaMuted (s : AdsState) (e : AdsFx) : (logFx s e).mediaMuted = s.mediaMuted := rfl
@[simp] lemma logFx_mediaSrc (s : AdsState) (e : AdsFx) : (logFx s e).mediaSrc = s.mediaSrc := rfl
@[simp] lemma logFx_elementCurrentTime (s : AdsState) (e : AdsFx) : (logFx s e).elementCurrentTime = s.elementCurrentTime := rfl
@[simp] lemma logFx_elementDuration (s : AdsState) (e : AdsFx) : (logFx s e).elementDuration = s.elementDuration := rfl
@[simp] lemma logFx_seekableEnd (s : AdsState) (e : AdsFx) : (logFx s e).seekableEnd = s.seekableEnd := rfl
@[simp] lemma logFx_log (s : AdsState) (e : AdsFx) : (logFx s e).log = s.log ++ [e] := rfl
@[simp] lemma adsFallbackMark_adsEnded (s : AdsState) : (adsFallbackMark s).adsEnded = s.adsEnded := rfl
@[simp] lemma adsFallbackMark_adsDone (s : AdsState) : (adsFallbackMark s).adsDone = false := rfl
@[simp] lemma adsFallbackMark_adsActive (s : AdsState) : (adsFallbackMark s).adsActive = s.adsActive := rfl
@[simp] lemma adsFallbackMark_adsStarted (s : AdsState) : (adsFallbackMark s).adsStarted = true := rfl
@[simp] lemma adsFallbackMark_intervalTimer (s : AdsState) : (adsFallbackMark s).intervalTimer = s.intervalTimer := rfl
@[simp] lemma adsFallbackMark_adsMuted (s : AdsState) : (adsFallbackMark s).adsMuted = s.adsMuted := rfl
@[simp] lemma adsFallbackMark_adsDuration (s : AdsState) : (adsFallbackMark s).adsDuration = s.adsDuration := rfl
@[simp] lemma adsFallbackMark_adsCurrentTime (s : AdsState) : (adsFallbackMark s).adsCurrentTime = s.adsCurrentTime := rfl
@[simp] lemma adsFallbackMark_adsManager (s : AdsState) : (adsFallbackMark s).adsManager = s.adsManager := rfl
@[simp] lemma adsFallbackMark_ads (s : AdsState) : (adsFallbackMark s).ads = s.ads := rfl
@[simp] lemma adsFallbackMark_playTriggered (s : AdsState) : (adsFallbackMark s).playTriggered = true := rfl
@[simp] lemma adsFallbackMark_currentAdsIndex (s : AdsState) : (adsFallbackMark s).currentAdsIndex = s.currentAdsIndex + 1 := rfl
@[simp] lemma adsFallbackMark_lastTimePaused (s : AdsState) : (adsFallbackMark s).lastTimePaused = s.lastTimePaused := rfl
@[simp] lemma adsFallbackMark_mediaSources (s : AdsState) : (adsFallbackMark s).mediaSources = s.mediaSources := rfl
@[simp] lemma adsFallbackMark_mediaStarted (s : AdsState) : (adsFallbackMark s).mediaStarted = s.mediaStarted := rfl
@[simp] lemma adsFallbackMark_adsVolume (s : AdsState) : (adsFallbackMark s).adsVolume = s.adsVolume := rfl
@[simp] lemma adsFallbackMark_originalVolume (s : AdsState) : (adsFallbackMark s).originalVolume = s.originalVolume := rfl
@[simp] lemma adsFallbackMark_autoStart (s : AdsState) : (adsFallbackMark s).autoStart = s.autoStart := rfl
@[simp] lemma adsFallbackMark_autoStartMuted (s : AdsState) : (adsFallbackMark s).autoStartMuted = s.autoStartMuted := rfl
@[simp] lemma adsFallbackMark_loop (s : AdsState) : (adsFallbackMark s).loop = s.loop := rfl
@[simp] lemma adsFallbackMark_autoPlayAdBreaks (s : AdsState) : (adsFallbackMark s).autoPlayAdBreaks = s.autoPlayAdBreaks := rfl
@[simp] lemma adsFallbackMark_enablePreloading (s : AdsState) : (adsFallbackMark s).enablePreloading = s.enablePreloading := rfl
@[simp] lemma adsFallbackMark_mobile (s : AdsState) : (adsFallbackMark s).mobile = s.mobile := rfl
@[simp] lemma adsFallbackMark_mediaPaused (s : AdsState) : (adsFallbackMark s).mediaPaused = s.mediaPaused := rfl
@[simp] lemma adsFallbackMark_mediaEnded (s : AdsState) : (adsFallbackMark s).mediaEnded = s.mediaEnded := rfl
@[simp] lemma adsFallbackMark_mediaCurrentTime (s : AdsState) : (adsFallbackMark s).mediaCurrentTime = s.mediaCurrentTime := rfl
@[simp] lemma adsFallbackMark_mediaVolume (s : AdsState) : (adsFallbackMark s).mediaVolume = s.mediaVolume := rfl
@[simp] lemma adsFallbackMark_mediaMuted (s : AdsState) : (adsFallbackMark s).mediaMuted = s.mediaMuted := rfl
@[simp] lemma adsFallbackMark_mediaSrc (s : AdsState) : (adsFallbackMark s).mediaSrc = s.mediaSrc := rfl
@[simp] lemma adsFallbackMark_elementCurrentTime (s : AdsState) : (adsFallbackMark s).elementCurrentTime = s.elementCurrentTime := rfl
@[simp] lemma adsFallbackMark_elementDuration (s : AdsState) : (adsFallbackMark s).elementDuration = s.elementDuration := rfl
@[simp] lemma adsFallbackMark_seekableEnd (s : AdsState) : (adsFallbackMark s).seekableEnd = s.seekableEnd := rfl
@[simp] lemma adsFallbackMark_log (s : AdsState) : (adsFallbackMark s).log = s.log := rfl
@[simp] lemma ads_requestAds_adsEnded (s : AdsState) : (ads_requestAds s).adsEnded = s.adsEnded := by
  simp [ads_requestAds]
@[simp] lemma ads_requestAds_adsDone (s : AdsState) : (ads_requestAds s).adsDone = s.adsDone := by
  simp [ads_requestAds]
@[simp] lemma ads_requestAds_adsActive (s : AdsState) : (ads_requestAds s).adsActive = s.adsActive := by
  simp [ads_requestAds]
@[simp] lemma ads_requestAds_adsStarted (s : AdsState) : (ads_requestAds s).adsStarted = s.adsStarted := by
  simp [ads_requestAds]
@[simp] lemma ads_requestAds_intervalTimer (s : AdsState) : (ads_requestAds s).intervalTimer = s.intervalTimer := by
  simp [ads_requestAds]
@[simp] lemma ads_requestAds_adsMuted (s : AdsState) : (ads_requestAds s).adsMuted = s.adsMuted := by
  simp [ads_requestAds]
@[simp] lemma ads_requestAds_adsDuration (s : AdsState) : (ads_requestAds s).adsDuration = s.adsDuration := by
  simp [ads_requestAds]
@[simp] lemma ads_requestAds_adsCurrentTime (s : AdsState) : (ads_requestAds s).adsCurrentTime = s.adsCurrentTime := by
  simp [ads_requestAds]
@[simp] lemma ads_requestAds_adsManager (s : AdsState) : (ads_requestAds s).adsManager = s.adsManager := by
  simp [ads_requestAds]
@[simp] lemma ads_requestAds_ads (s : AdsState) : (ads_requestAds s).ads = s.ads := by
  simp [ads_requestAds]
@[simp] lemma ads_requestAds_playTriggered (s : AdsState) : (ads_requestAds s).playTriggered = s.playTriggered := by
  simp [ads_requestAds]
@[simp] lemma ads_requestAds_currentAdsIndex (s : AdsState) : (ads_requestAds s).currentAdsIndex = s.currentAdsIndex := by
  simp [ads_requestAds]
@[simp] lemma ads_requestAds_lastTimePaused (s : AdsState) : (ads_requestAds s).lastTimePaused = s.lastTimePaused := by
  simp [ads_requestAds]
@[simp] lemma ads_requestAds_mediaSources (s : AdsState) : (ads_requestAds s).mediaSources = s.mediaSources := by
  simp [ads_requestAds]
@[simp] lemma ads_requestAds_mediaStarted (s : AdsState) : (ads_requestAds s).mediaStarted = s.mediaStarted := by
  simp [ads_requestAds]
@[simp] lemma ads_requestAds_adsVolume (s : AdsState) : (ads_requestAds s).adsVolume = s.adsVolume := by
  simp [ads_requestAds]
@[simp] lemma ads_requestAds_originalVolume (s : AdsState) : (ads_requestAds s).originalVolume = s.originalVolume := by
  simp [ads_requestAds]
@[simp] lemma ads_requestAds_autoStart (s : AdsState) : (ads_requestAds s).autoStart = s.autoStart := by
  simp [ads_requestAds]
@[simp] lemma ads_requestAds_autoStartMuted (s : AdsState) : (ads_requestAds s).autoStartMuted = s.autoStartMuted := by
  simp [ads_requestAds]
@[simp] lemma ads_requestAds_loop (s : AdsState) : (ads_requestAds s).loop = s.loop := by
  simp [ads_requestAds]
@[simp] lemma ads_requestAds_autoPlayAdBreaks (s : AdsState) : (ads_requestAds s).autoPlayAdBreaks = s.autoPlayAdBreaks := by
  simp [ads_requestAds]
@[simp] lemma ads_requestAds_enablePreloading (s : AdsState) : (ads_requestAds s).enablePreloading = s.enablePreloading := by
  simp [ads_requestAds]
@[simp] lemma ads_requestAds_mobile (s : AdsState) : (ads_requestAds s).mobile = s.mobile := by
  simp [ads_requestAds]
@[simp] lemma ads_requestAds_mediaPaused (s : AdsState) : (ads_requestAds s).mediaPaused = s.mediaPaused := by
  simp [ads_requestAds]
@[simp] lemma ads_requestAds_mediaEnded (s : AdsState) : (ads_requestAds s).mediaEnded = s.mediaEnded := by
  simp [ads_requestAds]
@[simp] lemma ads_requestAds_mediaCurrentTime (s : AdsState) : (ads_requestAds s).mediaCurrentTime = s.mediaCurrentTime := by
  simp [ads_requestAds]
@[simp] lemma ads_requestAds_mediaVolume (s : AdsState) : (ads_requestAds s).mediaVolume = s.mediaVolume := by
  simp [ads_requestAds]
@[simp] lemma ads_requestAds_mediaMuted (s : AdsState) : (ads_requestAds s).mediaMuted = s.mediaMuted := by
  simp [ads_requestAds]
@[simp] lemma ads_requestAds_mediaSrc (s : AdsState) : (ads_requestAds s).mediaSrc = s.mediaSrc := by
  simp [ads_requestAds]
@[simp] lemma ads_requestAds_elementCurrentTime (s : AdsState) : (ads_requestAds s).elementCurrentTime = s.elementCurrentTime := by
  simp [ads_requestAds]
@[simp] lemma ads_requestAds_elementDuration (s : AdsState) : (ads_requestAds s).elementDuration = s.elementDuration := by
  simp [ads_requestAds]
@[simp] lemma ads_requestAds_seekableEnd (s : AdsState) : (ads_requestAds s).seekableEnd = s.seekableEnd := by
  simp [ads_requestAds]
@[simp] lemma ads_destroy_adsEnded (s : AdsState) : (ads_destroy s).adsEnded = s.adsEnded := by
  simp only [ads_destroy]
  split_ifs <;> simp
@[simp] lemma ads_destroy_adsDone (s : AdsState) : (ads_destroy s).adsDone = s.adsDone := by
  simp only [ads_destroy]
  split_ifs <;> simp
@[simp] lemma ads_destroy_adsActive (s : AdsState) : (ads_destroy s).adsActive = s.adsActive := by
  simp only [ads_destroy]
  split_ifs <;> simp
@[simp] lemma ads_destroy_adsStarted (s : AdsState) : (ads_destroy s).adsStarted = s.adsStarted := by
  simp only [ads_destroy]
  split_ifs <;> simp
@[simp] lemma ads_destroy_intervalTimer (s : AdsState) : (ads_destroy s).intervalTimer = s.intervalTimer := by
  simp only [ads_destroy]
  split_ifs <;> simp
@[simp] lemma ads_destroy_adsMuted (s : AdsState) : (ads_destroy s).adsMuted = s.adsMuted := by
  simp only [ads_destroy]
  split_ifs <;> simp
@[simp] lemma ads_destroy_adsDuration (s : AdsState) : (ads_destroy s).adsDuration = s.adsDuration := by
  simp only [ads_destroy]
  split_ifs <;> simp
@[simp] lemma ads_destroy_adsCurrentTime (s : AdsState) : (ads_destroy s).adsCurrentTime = s.adsCurrentTime := by
  simp only [ads_destroy]
  split_ifs <;> simp
@[simp] lemma ads_destroy_adsManager (s : AdsState) : (ads_destroy s).adsManager = s.adsManager := by
  simp only [ads_destroy]
  split_ifs <;> simp
@[simp] lemma ads_destroy_ads (s : AdsState) : (ads_destroy s).ads = s.ads := by
  simp only [ads_destroy]
  split_ifs <;> simp
@[simp] lemma ads_destroy_playTriggered (s : AdsState) : (ads_destroy s).playTriggered = s.playTriggered := by
  simp only [ads_destroy]
  split_ifs <;> simp
@[simp] lemma ads_destroy_currentAdsIndex (s : AdsState) : (ads_destroy s).currentAdsIndex = s.currentAdsIndex := by
  simp only [ads_destroy]
  split_ifs <;> simp
@[simp] lemma ads_destroy_lastTimePaused (s : AdsState) : (ads_destroy s).lastTimePaused = s.lastTimePaused := by
  simp only [ads_destroy]
  split_ifs <;> simp
@[simp] lemma ads_destroy_mediaSources (s : AdsState) : (ads_destroy s).mediaSources = s.mediaSources := by
  simp only [ads_destroy]
  split_ifs <;> simp
@[simp] lemma ads_destroy_mediaStarted (s : AdsState) : (ads_destroy s).mediaStarted = s.mediaStarted := by
  simp only [ads_destroy]
  split_ifs <;> simp
@[simp] lemma ads_destroy_adsVolume (s : AdsState) : (ads_destroy s).adsVolume = s.adsVolume := by
  simp only [ads_destroy]
  split_ifs <;> simp
@[simp] lemma ads_destroy_originalVolume (s : AdsState) : (ads_destroy s).originalVolume = s.originalVolume := by
  simp only [ads_destroy]
  split_ifs <;> simp
@[simp] lemma ads_destroy_autoStart (s : AdsState) : (ads_destroy s).autoStart = s.autoStart := by
  simp only [ads_destroy]
  split_ifs <;> simp
@[simp] lemma ads_destroy_autoStartMuted (s : AdsState) : (ads_destroy s).autoStartMuted = s.autoStartMuted := by
  simp only [ads_destroy]
  split_ifs <;> simp
@[simp] lemma ads_destroy_loop (s : AdsState) : (ads_destroy s).loop = s.loop := by
  simp only [ads_destroy]
  split_ifs <;> simp
@[simp] lemma ads_destroy_autoPlayAdBreaks (s : AdsState) : (ads_destroy s).autoPlayAdBreaks = s.autoPlayAdBreaks := by
  simp only [ads_destroy]
  split_ifs <;> simp
@[simp] lemma ads_destroy_enablePreloading (s : AdsState) : (ads_destroy s).enablePreloading = s.enablePreloading := by
  simp only [ads_destroy]
  split_ifs <;> simp
@[simp] lemma ads_destroy_mobile (s : AdsState) : (ads_destroy s).mobile = s.mobile := by
  simp only [ads_destroy]
  split_ifs <;> simp
@[simp] lemma ads_destroy_mediaPaused (s : AdsState) : (ads_destroy s).mediaPaused = s.mediaPaused := by
  simp only [ads_destroy]
  split_ifs <;> simp
@[simp] lemma ads_destroy_mediaEnded (s : AdsState) : (ads_destroy s).mediaEnded = s.mediaEnded := by
  simp only [ads_destroy]
  split_ifs <;> simp
@[simp] lemma ads_destroy_mediaCurrentTime (s : AdsState) : (ads_destroy s).mediaCurrentTime = s.mediaCurrentTime := by
  simp only [ads_destroy]
  split_ifs <;> simp
@[simp] lemma ads_destroy_mediaVolume (s : AdsState) : (ads_destroy s).mediaVolume = s.mediaVolume := by
  simp only [ads_destroy]
  split_ifs <;> simp
@[simp] lemma ads_destroy_mediaMuted (s : AdsState) : (ads_destroy s).mediaMuted = s.mediaMuted := by
  simp only [ads_destroy]
  split_ifs <;> simp
@[simp] lemma ads_destroy_mediaSrc (s : AdsState) : (ads_destroy s).mediaSrc = s.mediaSrc := by
  simp only [ads_destroy]
  split_ifs <;> simp
@[simp] lemma ads_destroy_elementCurrentTime (s : AdsState) : (ads_destroy s).elementCurrentTime = s.elementCurrentTime := by
  simp only [ads_destroy]
  split_ifs <;> simp
@[simp] lemma ads_destroy_elementDuration (s : AdsState) : (ads_destroy s).elementDuration = s.elementDuration := by
  simp only [ads_destroy]
  split_ifs <;> simp
@[simp] lemma ads_destroy_seekableEnd (s : AdsState) : (ads_destroy s).seekableEnd = s.seekableEnd := by
  simp only [ads_destroy]
  split_ifs <;> simp
@[simp] lemma ads_load_adsEnded (force : Bool) (s : AdsState) : (ads_load force s).adsEnded = s.adsEnded := by
  simp only [ads_load]
  split_ifs <;> simp
@[simp] lemma ads_load_adsActive (force : Bool) (s : AdsState) : (ads_load force s).adsActive = s.adsActive := by
  simp only [ads_load]
  split_ifs <;> simp
@[simp] lemma ads_load_intervalTimer (force : Bool) (s : AdsState) : (ads_load force s).intervalTimer = s.intervalTimer := by
  simp only [ads_load]
  split_ifs <;> simp
@[simp] lemma ads_load_adsMuted (force : Bool) (s : AdsState) : (ads_load force s).adsMuted = s.adsMuted := by
  simp only [ads_load]
  split_ifs <;> simp
@[simp] lemma ads_load_adsDuration (force : Bool) (s : AdsState) : (ads_load force s).adsDuration = s.adsDuration := by
  simp only [ads_load]
  split_ifs <;> simp
@[simp] lemma ads_load_adsCurrentTime (force : Bool) (s : AdsState) : (ads_load force s).adsCurrentTime = s.adsCurrentTime := by
  simp only [ads_load]
  split_ifs <;> simp
@[simp] lemma ads_load_adsManager (force : Bool) (s : AdsState) : (ads_load force s).adsManager = s.adsManager := by
  simp only [ads_load]
  split_ifs <;> simp
@[simp] lemma ads_load_ads (force : Bool) (s : AdsState) : (ads_load force s).ads = s.ads := by
  simp only [ads_load]
  split_ifs <;> simp
@[simp] lemma ads_load_playTriggered (force : Bool) (s : AdsState) : (ads_load force s).playTriggered = s.playTriggered := by
  simp only [ads_load]
  split_ifs <;> simp
@[simp] lemma ads_load_currentAdsIndex (force : Bool) (s : AdsState) : (ads_load force s).currentAdsIndex = s.currentAdsIndex := by
  simp only [ads_load]
  split_ifs <;> simp
@[simp] lemma ads_load_lastTimePaused (force : Bool) (s : AdsState) : (ads_load force s).lastTimePaused = s.lastTimePaused := by
  simp only [ads_load]
  split_ifs <;> simp
@[simp] lemma ads_load_mediaStarted (force : Bool) (s : AdsState) : (ads_load force s).mediaStarted = s.mediaStarted := by
  simp only [ads_load]
  split_ifs <;> simp
@[simp] lemma ads_load_adsVolume (force : Bool) (s : AdsState) : (ads_load force s).adsVolume = s.adsVolume := by
  simp only [ads_load]
  split_ifs <;> simp
@[simp] lemma ads_load_originalVolume (force : Bool) (s : AdsState) : (ads_load force s).originalVolume = s.originalVolume := by
  simp only [ads_load]
  split_ifs <;> simp
@[simp] lemma ads_load_autoStart (force : Bool) (s : AdsState) : (ads_load force s).autoStart = s.autoStart := by
  simp only [ads_load]
  split_ifs <;> simp
@[simp] lemma ads_load_autoStartMuted (force : Bool) (s : AdsState) : (ads_load force s).autoStartMuted = s.autoStartMuted := by
  simp only [ads_load]
  split_ifs <;> simp
@[simp] lemma ads_load_loop (force : Bool) (s : AdsState) : (ads_load force s).loop = s.loop := by
  simp only [ads_load]
  split_ifs <;> simp
@[simp] lemma ads_load_autoPlayAdBreaks (force : Bool) (s : AdsState) : (ads_load force s).autoPlayAdBreaks = s.autoPlayAdBreaks := by
  simp only [ads_load]
  split_ifs <;> simp
@[simp] lemma ads_load_enablePreloading (force : Bool) (s : AdsState) : (ads_load force s).enablePreloading = s.enablePreloading := by
  simp only [ads_load]
  split_ifs <;> simp
@[simp] lemma ads_load_mobile (force : Bool) (s : AdsState) : (ads_load force s).mobile = s.mobile := by
  simp only [ads_load]
  split_ifs <;> simp
@[simp] lemma ads_load_mediaPaused (force : Bool) (s : AdsState) : (ads_load force s).mediaPaused = s.mediaPaused := by
  simp only [ads_load]
  split_ifs <;> simp
@[simp] lemma ads_load_mediaEnded (force : Bool) (s : AdsState) : (ads_load force s).mediaEnded = s.mediaEnded := by
  simp only [ads_load]
  split_ifs <;> simp
@[simp] lemma ads_load_mediaCurrentTime (force : Bool) (s : AdsState) : (ads_load force s).mediaCurrentTime = s.mediaCurrentTime := by
  simp only [ads_load]
  split_ifs <;> simp
@[simp] lemma ads_load_mediaVolume (force : Bool) (s : AdsState) : (ads_load force s).mediaVolume = s.mediaVolume := by
  simp only [ads_load]
  split_ifs <;> simp
@[simp] lemma ads_load_mediaMuted (force : Bool) (s : AdsState) : (ads_load force s).mediaMuted = s.mediaMuted := by
  simp only [ads_load]
  split_ifs <;> simp
@[simp] lemma ads_load_mediaSrc (force : Bool) (s : AdsState) : (ads_load force s).mediaSrc = s.mediaSrc := by
  simp only [ads_load]
  split_ifs <;> simp
@[simp] lemma ads_load_elementCurrentTime (force : Bool) (s : AdsState) : (ads_load force s).elementCurrentTime = s.elementCurrentTime := by
  simp only [ads_load]
  split_ifs <;> simp
@[simp] lemma ads_load_elementDuration (force : Bool) (s : AdsState) : (ads_load force s).elementDuration = s.elementDuration := by
  simp only [ads_load]
  split_ifs <;> simp
@[simp] lemma ads_load_seekableEnd (force : Bool) (s : AdsState) : (ads_load force s).seekableEnd = s.seekableEnd := by
  simp only [ads_load]
  split_ifs <;> simp
lemma ads_load_true_adsStarted (s : AdsState) : (ads_load true s).adsStarted = true := by
  simp only [ads_load]
  split_ifs <;> simp_all
@[simp] lemma ads_resumeMedia_adsEnded (s : AdsState) : (ads_resumeMedia s).adsEnded = s.adsEnded := by
  simp only [ads_resumeMedia]
  split_ifs <;> simp
@[simp] lemma ads_resumeMedia_adsDone (s : AdsState) : (ads_resumeMedia s).adsDone = s.adsDone := by
  simp only [ads_resumeMedia]
  split_ifs <;> simp
@[simp] lemma ads_resumeMedia_adsActive (s : AdsState) : (ads_resumeMedia s).adsActive = s.adsActive := by
  simp only [ads_resumeMedia]
  split_ifs <;> simp
@[simp] lemma ads_resumeMedia_adsManager (s : AdsState) : (ads_resumeMedia s).adsManager = s.adsManager := by
  simp only [ads_resumeMedia]
  split_ifs <;> simp
@[simp] lemma ads_resumeMedia_ads (s : AdsState) : (ads_resumeMedia s).ads = s.ads := by
  simp only [ads_resumeMedia]
  split_ifs <;> simp
@[simp] lemma ads_resumeMedia_playTriggered (s : AdsState) : (ads_resumeMedia s).playTriggered = s.playTriggered := by
  simp only [ads_resumeMedia]
  split_ifs <;> simp
@[simp] lemma ads_resumeMedia_currentAdsIndex (s : AdsState) : (ads_resumeMedia s).currentAdsIndex = s.currentAdsIndex := by
  simp only [ads_resumeMedia]
  split_ifs <;> simp
@[simp] lemma ads_resumeMedia_lastTimePaused (s : AdsState) : (ads_resumeMedia s).lastTimePaused = s.lastTimePaused := by
  simp only [ads_resumeMedia]
  split_ifs <;> simp
@[simp] lemma ads_resumeMedia_mediaSources (s : AdsState) : (ads_resumeMedia s).mediaSources = s.mediaSources := by
  simp only [ads_resumeMedia]
  split_ifs <;> simp
@[simp] lemma ads_resumeMedia_mediaStarted (s : AdsState) : (ads_resumeMedia s).mediaStarted = s.mediaStarted := by
  simp only [ads_resumeMedia]
  split_ifs <;> simp
@[simp] lemma ads_resumeMedia_adsVolume (s : AdsState) : (ads_resumeMedia s).adsVolume = s.adsVolume := by
  simp only [ads_resumeMedia]
  split_ifs <;> simp
@[simp] lemma ads_resumeMedia_originalVolume (s : AdsState) : (ads_resumeMedia s).originalVolume = s.originalVolume := by
  simp only [ads_resumeMedia]
  split_ifs <;> simp
@[simp] lemma ads_resumeMedia_autoStart (s : AdsState) : (ads_resumeMedia s).autoStart = s.autoStart := by
  simp only [ads_resumeMedia]
  split_ifs <;> simp
@[simp] lemma ads_resumeMedia_autoStartMuted (s : AdsState) : (ads_resumeMedia s).autoStartMuted = s.autoStartMuted := by
  simp only [ads_resumeMedia]
  split_ifs <;> simp
@[simp] lemma ads_resumeMedia_loop (s : AdsState) : (ads_resumeMedia s).loop = s.loop := by
  simp only [ads_resumeMedia]
  split_ifs <;> simp
@[simp] lemma ads_resumeMedia_autoPlayAdBreaks (s : AdsState) : (ads_resumeMedia s).autoPlayAdBreaks = s.autoPlayAdBreaks := by
  simp only [ads_resumeMedia]
  split_ifs <;> simp
@[simp] lemma ads_resumeMedia_enablePreloading (s : AdsState) : (ads_resumeMedia s).enablePreloading = s.enablePreloading := by
  simp only [ads_resumeMedia]
  split_ifs <;> simp
@[simp] lemma ads_resumeMedia_mobile (s : AdsState) : (ads_resumeMedia s).mobile = s.mobile := by
  simp only [ads_resumeMedia]
  split_ifs <;> simp
@[simp] lemma ads_resumeMedia_mediaEnded (s : AdsState) : (ads_resumeMedia s).mediaEnded = s.mediaEnded := by
  simp only [ads_resumeMedia]
  split_ifs <;> simp
@[simp] lemma ads_resumeMedia_mediaCurrentTime (s : AdsState) : (ads_resumeMedia s).mediaCurrentTime = s.mediaCurrentTime := by
  simp only [ads_resumeMedia]
  split_ifs <;> simp
@[simp] lemma ads_resumeMedia_mediaVolume (s : AdsState) : (ads_resumeMedia s).mediaVolume = s.mediaVolume := by
  simp only [ads_resumeMedia]
  split_ifs <;> simp
@[simp] lemma ads_resumeMedia_mediaMuted (s : AdsState) : (ads_resumeMedia s).mediaMuted = s.mediaMuted := by
  simp only [ads_resumeMedia]
  split_ifs <;> simp
@[simp] lemma ads_resumeMedia_mediaSrc (s : AdsState) : (ads_resumeMedia s).mediaSrc = s.mediaSrc := by
  simp only [ads_resumeMedia]
  split_ifs <;> simp
@[simp] lemma ads_resumeMedia_elementCurrentTime (s : AdsState) : (ads_resumeMedia s).elementCurrentTime = s.elementCurrentTime := by
  simp only [ads_resumeMedia]
  split_ifs <;> simp
@[simp] lemma ads_resumeMedia_elementDuration (s : AdsState) : (ads_resumeMedia s).elementDuration = s.elementDuration := by
  simp only [ads_resumeMedia]
  split_ifs <;> simp
@[simp] lemma ads_resumeMedia_seekableEnd (s : AdsState) : (ads_resumeMedia s).seekableEnd = s.seekableEnd := by
  simp only [ads_resumeMedia]
  split_ifs <;> simp
@[simp] lemma ads_resumeMedia_adsStarted (s : AdsState) :
    (ads_resumeMedia s).adsStarted = false := by
  simp only [ads_resumeMedia]
  split_ifs <;> simp
@[simp] lemma ads_prepareMedia_adsEnded (s : AdsState) : (ads_prepareMedia s).adsEnded = s.adsEnded := by
  simp [ads_prepareMedia]
@[simp] lemma ads_prepareMedia_adsDone (s : AdsState) : (ads_prepareMedia s).adsDone = s.adsDone := by
  simp [ads_prepareMedia]
@[simp] lemma ads_prepareMedia_adsActive (s : AdsState) : (ads_prepareMedia s).adsActive = s.adsActive := by
  simp [ads_prepareMedia]
@[simp] lemma ads_prepareMedia_adsManager (s : AdsState) : (ads_prepareMedia s).adsManager = s.adsManager := by
  simp [ads_prepareMedia]
@[simp] lemma ads_prepareMedia_ads (s : AdsState) : (ads_prepareMedia s).ads = s.ads := by
  simp [ads_prepareMedia]
@[simp] lemma ads_prepareMedia_playTriggered (s : AdsState) : (ads_prepareMedia s).playTriggered = s.playTriggered := by
  simp [ads_prepareMedia]
@[simp] lemma ads_prepareMedia_currentAdsIndex (s : AdsState) : (ads_prepareMedia s).currentAdsIndex = s.currentAdsIndex := by
  simp [ads_prepareMedia]
@[simp] lemma ads_prepareMedia_lastTimePaused (s : AdsState) : (ads_prepareMedia s).lastTimePaused = s.lastTimePaused := by
  simp [ads_prepareMedia]
@[simp] lemma ads_prepareMedia_mediaEnded (s : AdsState) : (ads_prepareMedia s).mediaEnded = s.mediaEnded := by
  simp [ads_prepareMedia]
@[simp] lemma ads_prepareMedia_mobile (s : AdsState) : (ads_prepareMedia s).mobile = s.mobile := by
  simp [ads_prepareMedia]
@[simp] lemma ads_prepareMedia_loop (s : AdsState) : (ads_prepareMedia s).loop = s.loop := by
  simp [ads_prepareMedia]
@[simp] lemma ads_prepareMedia_autoPlayAdBreaks (s : AdsState) : (ads_prepareMedia s).autoPlayAdBreaks = s.autoPlayAdBreaks := by
  simp [ads_prepareMedia]
@[simp] lemma ads_prepareMedia_mediaCurrentTime (s : AdsState) :
    (ads_prepareMedia s).mediaCurrentTime = s.lastTimePaused := by
  simp [ads_prepareMedia]
@[simp] lemma ads_reset_adsActive (s : AdsState) : (ads_resetAdsAfterManualBreak s).adsActive = s.adsActive := by
  simp only [ads_resetAdsAfterManualBreak]
  split_ifs <;> simp
@[simp] lemma ads_reset_adsStarted (s : AdsState) : (ads_resetAdsAfterManualBreak s).adsStarted = s.adsStarted := by
  simp only [ads_resetAdsAfterManualBreak]
  split_ifs <;> simp
@[simp] lemma ads_reset_mediaPaused (s : AdsState) : (ads_resetAdsAfterManualBreak s).mediaPaused = s.mediaPaused := by
  simp only [ads_resetAdsAfterManualBreak]
  split_ifs <;> simp
@[simp] lemma ads_reset_currentAdsIndex (s : AdsState) : (ads_resetAdsAfterManualBreak s).currentAdsIndex = s.currentAdsIndex := by
  simp only [ads_resetAdsAfterManualBreak]
  split_ifs <;> simp
@[simp] lemma ads_reset_ads (s : AdsState) : (ads_resetAdsAfterManualBreak s).ads = s.ads := by
  simp only [ads_resetAdsAfterManualBreak]
  split_ifs <;> simp
@[simp] lemma ads_reset_adsManager (s : AdsState) : (ads_resetAdsAfterManualBreak s).adsManager = s.adsManager := by
  simp only [ads_resetAdsAfterManualBreak]
  split_ifs <;> simp
@[simp] lemma ads_reset_mediaEnded (s : AdsState) : (ads_resetAdsAfterManualBreak s).mediaEnded = s.mediaEnded := by
  simp only [ads_resetAdsAfterManualBreak]
  split_ifs <;> simp
@[simp] lemma ads_reset_mediaCurrentTime (s : AdsState) : (ads_resetAdsAfterManualBreak s).mediaCurrentTime = s.mediaCurrentTime := by
  simp only [ads_resetAdsAfterManualBreak]
  split_ifs <;> simp
@[simp] lemma ads_reset_lastTimePaused (s : AdsState) : (ads_resetAdsAfterManualBreak s).lastTimePaused = s.lastTimePaused := by
  simp only [ads_resetAdsAfterManualBreak]
  split_ifs <;> simp
@[simp] lemma ads_reset_mobile (s : AdsState) : (ads_resetAdsAfterManualBreak s).mobile = s.mobile := by
  simp only [ads_resetAdsAfterManualBreak]
  split_ifs <;> simp
@[simp] lemma ads_reset_loop (s : AdsState) : (ads_resetAdsAfterManualBreak s).loop = s.loop := by
  simp only [ads_resetAdsAfterManualBreak]
  split_ifs <;> simp
@[simp] lemma ads_reset_autoPlayAdBreaks (s : AdsState) : (ads_resetAdsAfterManualBreak s).autoPlayAdBreaks = s.autoPlayAdBreaks := by
  simp only [ads_resetAdsAfterManualBreak]
  split_ifs <;> simp
@[simp] lemma ads_reset_seekableEnd (s : AdsState) : (ads_resetAdsAfterManualBreak s).seekableEnd = s.seekableEnd := by
  simp only [ads_resetAdsAfterManualBreak]
  split_ifs <;> simp
@[simp] lemma ads_loadedMetadataHandler_adsActive (s : AdsState) :
    (ads_loadedMetadataHandler s).adsActive = s.adsActive := by
  rcases hads : s.ads with t | l <;> simp only [ads_loadedMetadataHandler, hads]
  · rcases hse : s.seekableEnd with - | e <;> simp only [hse]
    · simp
    · split_ifs <;> simp
  · split_ifs <;> simp

@[simp] lemma ads_onContentResumeRequested_adsActive (s : AdsState) :
    (ads_onContentResumeRequested s).adsActive = s.adsActive := by
  simp only [ads_onContentResumeRequested]
  split_ifs with h1 h2
  · rcases hads : s.ads with t | l <;> simp [hads] <;> split_ifs <;> simp
  · simp
  · simp

@[simp] lemma ads_setMediaVolume_adsActive (v : ℚ) (s : AdsState) :
    (ads_setMediaVolume v s).adsActive = s.adsActive := rfl

@[simp] lemma ads_setMediaVolume_mediaPaused (v : ℚ) (s : AdsState) :
    (ads_setMediaVolume v s).mediaPaused = s.mediaPaused := rfl

lemma ads_assign_started_mediaPaused (s : AdsState) :
    (ads_assign (.started true) s).mediaPaused = true := by
  simp only [ads_assign, ads_assignSwitch]
  split_ifs <;> simp_all

lemma ads_error_inv (code : Int) (s : AdsState)
    (hinv : s.adsActive = true → s.mediaPaused = true) :
    (ads_error code s).adsActive = true → (ads_error code s).mediaPaused = true := by
  simp only [ads_error]
  split_ifs <;> simp_all

lemma ads_step_inv (s : AdsState) (e : AdsStep)
    (hinv : s.adsActive = true → s.mediaPaused = true)
    (hguard : resumeTriggering e = true → s.adsActive = false) :
    (ads_step s e).adsActive = true → (ads_step s e).mediaPaused = true := by
  cases e with
  | sdk ev =>
    cases ev with
    | loaded linear duration =>
      cases linear with
      | false =>
        have h0 : s.adsActive = false := hguard rfl
        simp only [ads_step, ads_assign, ads_assignSwitch]
        simp_all
      | true =>
        simp only [ads_step, ads_assign, ads_assignSwitch]
        split_ifs <;> simp_all
    | started linear =>
      cases linear with
      | false =>
        simp only [ads_step, ads_assign, ads_assignSwitch]
        simp_all
      | true =>
        intro _
        exact ads_assign_started_mediaPaused s
    | complete linear =>
      cases linear with
      | false => simp only [ads_step, ads_assign, ads_assignSwitch]; simp_all
      | true => simp only [ads_step, ads_assign, ads_assignSwitch]; simp_all
    | skipped linear =>
      cases linear with
      | false => simp only [ads_step, ads_assign, ads_assignSwitch]; simp_all
      | true => simp only [ads_step, ads_assign, ads_assignSwitch]; simp_all
    | allAdsCompleted linear =>
      cases linear with
      | false => simp only [ads_step, ads_assign, ads_assignSwitch]; simp_all
      | true =>
        simp only [ads_step, ads_assign, ads_assignSwitch]
        split_ifs <;> simp_all
    | click => simp only [ads_step, ads_assign, ads_assignSwitch]; simp_all
    | volumeChanged linear sdkVolume =>
      simp only [ads_step, ads_assign, ads_assignSwitch]
      split_ifs <;> simp_all
    | volumeMuted linear =>
      simp only [ads_step, ads_assign, ads_assignSwitch]
      split_ifs <;> simp_all
    | logEvent hasAdError =>
      simp only [ads_step, ads_assign, ads_assignSwitch]
      split_ifs <;> simp_all
  | adError code => exact ads_error_inv code s hinv
  | contentPause =>
    simp only [ads_step, ads_onContentPauseRequested]
    split_ifs <;> simp_all
  | contentResume =>
    have h0 : s.adsActive = false := hguard rfl
    simp only [ads_step]
    simp_all
  | loadedMetadata =>
    have h0 : s.adsActive = false := hguard rfl
    simp only [ads_step]
    simp_all
  | contentEnded =>
    simp only [ads_step, ads_contentEndedListener]
    simp_all
  | loadCall force =>
    simp only [ads_step]
    simp_all

/-- Claim C5 counterexample: in the unrestricted event-handling step
relation the stated invariant fails.  From a freshly constructed `Ads`
state with the content media playing, process a linear `STARTED` event
(which pauses the media and sets `#adsActive`) and then a
`CONTENT_RESUME_REQUESTED` event (nothing in `_onContentResumeRequested`
checks or clears `#adsActive`): the resulting reachable state has
`#adsActive = true` while the content media is playing again. -/
theorem ads_adBreak_claim_counterexample :
    AdsReachable
        (adsInit (.single "tag") false false false true false true false false 0 1 [] 0 10 none)
        (ads_step
          (ads_step
            (adsInit (.single "tag") false false false true false true false false 0 1 [] 0 10 none)
            (.sdk (.started true)))
          .contentResume) ∧
    (ads_step
        (ads_step
          (adsInit (.single "tag") false false false true false true false false 0 1 [] 0 10 none)
          (.sdk (.started true)))
        .contentResume).adsActive = true ∧
    (ads_step
        (ads_step
          (adsInit (.single "tag") false false false true false true false false 0 1 [] 0 10 none)
          (.sdk (.started true)))
        .contentResume).mediaPaused = false :=
  ⟨AdsReachable.step _ _ (AdsReachable.step _ _ AdsReachable.refl), rfl, rfl⟩

/-- Claim C5 (amended): whenever the step relation processes a linear ad's
`STARTED` event the content media ends paused (it is paused if it was
playing); and provided content-resume handling (`CONTENT_RESUME_REQUESTED`,
a non-linear `LOADED`, and the `loadedmetadata` fallback — the steps that
reach `_resumeMedia`/`_prepareMedia` without an error) only runs while no
ad is active, every state reachable from a constructed state satisfies:
the content media is never playing while `#adsActive` is true. -/
theorem ads_adBreak_invariant :
    (∀ s : AdsState, (ads_assign (.started true) s).mediaPaused = true) ∧
    (∀ init s : AdsState, init.adsActive = false →
        AdsGuardedReachable init s → s.adsActive = true → s.mediaPaused = true) := by
  refine ⟨ads_assign_started_mediaPaused, ?_⟩
  intro init s hinit hreach
  induction hreach with
  | refl =>
    intro h
    rw [hinit] at h
    exact absurd h (by simp)
  | step s' e hr hg ih => exact ads_step_inv s' e ih hg

/-- Claim C5 witness: the amended theorem applied to a concrete run — after
the constructor and one linear `STARTED` step the state has an active ad
and a paused content media. -/
theorem ads_adBreak_invariant_witness :
    (ads_step
        (adsInit (.single "tag") false false false true false true false false 0 1 [] 0 10 none)
        (.sdk (.started true))).adsActive = true ∧
    (ads_step
        (adsInit (.single "tag") false false false true false true false false 0 1 [] 0 10 none)
        (.sdk (.started true))).mediaPaused = true := by
  refine ⟨rfl, ?_⟩
  exact ads_adBreak_invariant.2
    (adsInit (.single "tag") false false false true false true false false 0 1 [] 0 10 none)
    _ rfl
    (AdsGuardedReachable.step _ _ AdsGuardedReachable.refl
      (by intro h; simp [resumeTriggering] at h))
    rfl

/-- Claim C4: around an ad break, `Ads._onContentPauseRequested` stores the
content media's `currentTime` in `#lastTimePaused` and pauses the media
when ads had already started (otherwise it only marks them started, leaving
the media as it was), and `Ads._prepareMedia` restores the content media's
`currentTime` to exactly the stored `#lastTimePaused` value before resuming
(it is literally `_resumeMedia` after the `currentTime` restoration, and
resuming does not change `currentTime`). -/
theorem ads_pause_resume_sync (s t : AdsState) :
    (ads_onContentPauseRequested s).lastTimePaused = s.mediaCurrentTime ∧
    (s.adsStarted = true → (ads_onContentPauseRequested s).mediaPaused = true) ∧
    (s.adsStarted = false →
      (ads_onContentPauseRequested s).mediaPaused = s.mediaPaused ∧
      (ads_onContentPauseRequested s).adsStarted = true) ∧
    ads_prepareMedia t = ads_resumeMedia { t with mediaCurrentTime := t.lastTimePaused } ∧
    (ads_prepareMedia t).mediaCurrentTime = t.lastTimePaused := by
  refine ⟨?_, ?_, ?_, rfl, ads_prepareMedia_mediaCurrentTime t⟩
  · simp only [ads_onContentPauseRequested]
    split_ifs <;> simp
  · intro h
    simp only [ads_onContentPauseRequested]
    split_ifs <;> simp_all
  · intro h
    simp only [ads_onContentPauseRequested]
    split_ifs <;> simp_all

/-- Claim C4 witness: the theorem applied to a concrete state with ads
started and the content media at time 7: the pause request stores 7, pauses
the media, and `_prepareMedia` on the resulting state restores time 7. -/
theorem ads_pause_resume_sync_witness :
    (ads_onContentPauseRequested
        { adsInit (.single "tag") false false false true false false true false 7 1 [] 0 10 none
          with adsStarted := true }).lastTimePaused = 7 ∧
    (ads_onContentPauseRequested
        { adsInit (.single "tag") false false false true false false true false 7 1 [] 0 10 none
          with adsStarted := true }).mediaPaused = true ∧
    (ads_prepareMedia
        (ads_onContentPauseRequested
          { adsInit (.single "tag") false false false true false false true false 7 1 [] 0 10 none
            with adsStarted := true })).mediaCurrentTime = 7 := by
  have h := ads_pause_resume_sync
    { adsInit (.single "tag") false false false true false false true false 7 1 [] 0 10 none
      with adsStarted := true }
    (ads_onContentPauseRequested
      { adsInit (.single "tag") false false false true false false true false 7 1 [] 0 10 none
        with adsStarted := true })
  exact ⟨h.1.trans rfl, h.2.1 rfl, h.2.2.2.2.trans (h.1.trans rfl)⟩

lemma adsNewLog_of_append (s r : AdsState) (t : List AdsFx) (h : r.log = s.log ++ t) :
    adsNewLog s r = t := by
  simp [adsNewLog, h, List.drop_left]

lemma adsFallbackCond_logFx (s : AdsState) (e : AdsFx) :
    adsFallbackCond (logFx s e) = adsFallbackCond s := rfl

lemma ads_error_fallback_eq (s : AdsState) (code : Int) (hfb : adsFallbackCond s = true) :
    ads_error code s =
      logFx (ads_load true (ads_destroy (adsFallbackMark (logFx s (.dispatch "playererror")))))
        .warn := by
  simp only [ads_error, adsFallbackCond_logFx, hfb, if_true]

lemma ads_error_fallback_newLog (s : AdsState) (code : Int) (hfb : adsFallbackCond s = true) :
    AdsFx.mediaPlay ∉ adsNewLog s (ads_error code s) ∧
    AdsFx.dispatch "ended" ∉ adsNewLog s (ads_error code s) := by
  rw [ads_error_fallback_eq s code hfb]
  simp only [ads_load, ads_destroy, ads_requestAds, adsFallbackMark, logFx]
  split_ifs <;>
    simp_all [adsNewLog, List.drop_left, List.append_assoc]

lemma ads_error_else_props (s : AdsState) (code : Int) (hfb : adsFallbackCond s = false) :
    (ads_error code s).currentAdsIndex = s.currentAdsIndex ∧
    (AdsFx.managerDestroy ∈ adsNewLog s (ads_error code s) ↔
      code ∈ adsFatalErrorCodes ∧ s.adsManager = true) ∧
    ((s.autoStart || s.autoStartMuted || s.adsStarted) = true →
      (ads_error code s).adsActive = false ∧
      (AdsFx.mediaPlay ∈ adsNewLog s (ads_error code s) ∨
        AdsFx.dispatch "ended" ∈ adsNewLog s (ads_error code s))) ∧
    ((s.autoStart || s.autoStartMuted || s.adsStarted) = false →
      (ads_error code s).mediaPaused = s.mediaPaused ∧
      AdsFx.mediaPlay ∉ adsNewLog s (ads_error code s)) := by
  simp only [ads_error, adsFallbackCond_logFx, hfb, Bool.false_eq_true, if_false]
  simp only [ads_resumeMedia, logFx]
  split_ifs <;> simp_all [adsNewLog, List.drop_left] <;>
    (intros; casesm* _ ∨ _ <;> simp_all)

/-- Claim C3: when `Ads._error` handles an ad error with an array source of
more than one tag and the current index strictly below the last position,
it falls back to the next tag: it increments the index by exactly one,
marks play as triggered and ads as started but not done, destroys and
reloads the ads setup (`load` with `force = true`), and does not resume the
content media (no `media.play`, no `ended` dispatch, media pause state
unchanged).  In every other case it does not change the index, destroys the
ads manager exactly when the error code is fatal (and a manager exists),
and resumes the content media exactly when autoplay was requested or ads
had started (clearing `#adsActive`). -/
theorem ads_error_spec (s : AdsState) (code : Int) :
    (adsFallbackCond s = true →
      ads_error code s =
        logFx (ads_load true (ads_destroy (adsFallbackMark (logFx s (.dispatch "playererror")))))
          .warn ∧
      (ads_error code s).currentAdsIndex = s.currentAdsIndex + 1 ∧
      (ads_error code s).playTriggered = true ∧
      (ads_error code s).adsStarted = true ∧
      (adsFallbackMark (logFx s (.dispatch "playererror"))).adsDone = false ∧
      (ads_error code s).mediaPaused = s.mediaPaused ∧
      AdsFx.mediaPlay ∉ adsNewLog s (ads_error code s) ∧
      AdsFx.dispatch "ended" ∉ adsNewLog s (ads_error code s)) ∧
    (adsFallbackCond s = false →
      (ads_error code s).currentAdsIndex = s.currentAdsIndex ∧
      (AdsFx.managerDestroy ∈ adsNewLog s (ads_error code s) ↔
        code ∈ adsFatalErrorCodes ∧ s.adsManager = true) ∧
      ((s.autoStart || s.autoStartMuted || s.adsStarted) = true →
        (ads_error code s).adsActive = false ∧
        (AdsFx.mediaPlay ∈ adsNewLog s (ads_error code s) ∨
          AdsFx.dispatch "ended" ∈ adsNewLog s (ads_error code s))) ∧
      ((s.autoStart || s.autoStartMuted || s.adsStarted) = false →
        (ads_error code s).mediaPaused = s.mediaPaused ∧
        AdsFx.mediaPlay ∉ adsNewLog s (ads_error code s))) := by
  constructor
  · intro hfb
    have heq := ads_error_fallback_eq s code hfb
    have hlog := ads_error_fallback_newLog s code hfb
    refine ⟨heq, ?_, ?_, ?_, rfl, ?_, hlog.1, hlog.2⟩
    · rw [heq]; simp
    · rw [heq]; simp
    · rw [heq]; simp [ads_load_true_adsStarted]
    · rw [heq]; simp
  · intro hfb
    exact ads_error_else_props s code hfb

/-- Claim C3 witness: the theorem applied to two concrete states — one with
two ad tags and index 0 (the fallback fires: index becomes 1, play
triggered, ads started, no media resume) and one with a single tag, a fatal
code and autoplay (no fallback: index unchanged, no manager to destroy, the
content media is resumed). -/
theorem ads_error_spec_witness :
    (ads_error 303
        (adsInit (.many ["tagA", "tagB"]) false false false true false false true false 0 1 [] 0 10
          none)).currentAdsIndex =
      (adsInit (.many ["tagA", "tagB"]) false false false true false false true false 0 1 [] 0 10
          none).currentAdsIndex + 1 ∧
    (ads_error 303
        (adsInit (.many ["tagA", "tagB"]) false false false true false false true false 0 1 [] 0 10
          none)).playTriggered = true ∧
    (ads_error 303
        (adsInit (.many ["tagA", "tagB"]) false false false true false false true false 0 1 [] 0 10
          none)).adsStarted = true ∧
    AdsFx.mediaPlay ∉
      adsNewLog
        (adsInit (.many ["tagA", "tagB"]) false false false true false false true false 0 1 [] 0 10
          none)
        (ads_error 303
          (adsInit (.many ["tagA", "tagB"]) false false false true false false true false 0 1 [] 0
            10 none)) ∧
    (ads_error 900
        (adsInit (.single "tagA") true false false true false false true false 0 1 [] 0 10
          none)).currentAdsIndex =
      (adsInit (.single "tagA") true false false true false false true false 0 1 [] 0 10
          none).currentAdsIndex ∧
    (AdsFx.managerDestroy ∈
        adsNewLog (adsInit (.single "tagA") true false false true false false true false 0 1 [] 0 10 none)
          (ads_error 900
            (adsInit (.single "tagA") true false false true false false true false 0 1 [] 0 10
              none)) ↔
      900 ∈ adsFatalErrorCodes ∧
        (adsInit (.single "tagA") true false false true false false true false 0 1 [] 0 10
            none).adsManager = true) ∧
    (ads_error 900
        (adsInit (.single "tagA") true false false true false false true false 0 1 [] 0 10
          none)).adsActive = false := by
  have hF := (ads_error_spec
    (adsInit (.many ["tagA", "tagB"]) false false false true false false true false 0 1 [] 0 10
      none) 303).1 (by decide)
  have hE := (ads_error_spec
    (adsInit (.single "tagA") true false false true false false true false 0 1 [] 0 10 none)
    900).2 (by decide)
  exact ⟨hF.2.1, hF.2.2.1, hF.2.2.2.1, hF.2.2.2.2.2.2.1, hE.1, hE.2.1,
    (hE.2.2.1 (by decide)).1⟩

/-! ### Lemmas about the WebVTT parser -/

lemma refBlock_nil (tc1 tc2 : String) (ident : Option String) (acc : String) :
    refBlock tc1 tc2 ident acc [] = Except.ok [mkCueEntry tc1 tc2 ident acc] := by
  rw [refBlock.eq_def]
  simp [joinOnto]

lemma refBlock_cons_empty (tc1 tc2 : String) (ident : Option String) (acc : String)
    (rest : List String) :
    refBlock tc1 tc2 ident acc ("" :: rest) =
      (cuesRef (some "") rest).map (fun es => mkCueEntry tc1 tc2 ident acc :: es) := by
  rw [refBlock.eq_def]
  split
  · next heq => simp [List.dropWhile_cons] at heq
  · next head rest4 heq =>
    simp only [List.dropWhile_cons] at heq
    simp at heq
    obtain ⟨h1, h2⟩ := heq
    subst h2
    simp [joinOnto]

lemma refBlock_cons_ne (tc1 tc2 : String) (ident : Option String) (acc : String)
    (l : String) (rest : List String) (hl : l ≠ "") :
    refBlock tc1 tc2 ident acc (l :: rest) =
      refBlock tc1 tc2 ident (acc ++ "\n" ++ l) rest := by
  have hdw : List.dropWhile (fun x => decide (x ≠ "")) (l :: rest) =
      List.dropWhile (fun x => decide (x ≠ "")) rest := by
    rw [List.dropWhile_cons, if_pos (by simp [hl])]
  have hjoin : ∀ ts : List String,
      joinOnto acc (l :: ts) = joinOnto (acc ++ "\n" ++ l) ts := fun ts => rfl
  rw [refBlock.eq_def, refBlock.eq_def]
  split
  · next heq =>
    rw [hdw] at heq
    split
    · next heq2 => simp [List.takeWhile_cons, hl, hjoin]
    · next head2 rest5 heq2 => rw [heq] at heq2; exact absurd heq2 (by simp)
  · next head rest4 heq =>
    rw [hdw] at heq
    split
    · next heq2 => rw [heq2] at heq; exact absurd heq (by simp)
    · next head2 rest5 heq2 =>
      have hcc : head :: rest4 = head2 :: rest5 := heq.symm.trans heq2
      obtain ⟨-, h2⟩ := List.cons_eq_cons.mp hcc
      subst h2
      simp [List.takeWhile_cons, hl, hjoin]

lemma ident_eq_prev (prev : Option String) :
    (match prev with
     | some p => if p ≠ "" then some p else identDefault prev
     | none => identDefault prev) = prev := by
  cases prev with
  | none => rfl
  | some p =>
    by_cases hp : p = ""
    · subst hp; rfl
    · simp [identDefault, hp]

lemma cues_refine (n : Nat) : ∀ ls : List String, ls.length ≤ n →
    (∀ prev, cuesLoop prev (identDefault prev) ls = cuesRef prev ls) ∧
    (∀ tc1 tc2 ident acc, cueBlock tc1 tc2 ident acc ls = refBlock tc1 tc2 ident acc ls) := by
  induction n with
  | zero =>
    intro ls hls
    have hnil : ls = [] := List.length_eq_zero.mp (Nat.le_zero.mp hls)
    subst hnil
    constructor
    · intro prev
      rw [cuesLoop.eq_def, cuesRef.eq_def]
    · intro tc1 tc2 ident acc
      rw [cueBlock.eq_def, refBlock_nil]
  | succ n ih =>
    intro ls hls
    cases ls with
    | nil =>
      constructor
      · intro prev
        rw [cuesLoop.eq_def, cuesRef.eq_def]
      · intro tc1 tc2 ident acc
        rw [cueBlock.eq_def, refBlock_nil]
    | cons l rest =>
      have hrest : rest.length ≤ n := by
        simp only [List.length_cons] at hls
        omega
      constructor
      · intro prev
        rw [cuesLoop.eq_def, cuesRef.eq_def]
        cases htc : timecodeExec l with
        | none =>
          simp only [htc]
          have h1 := (ih rest hrest).1 (some l)
          simpa [identDefault] using h1
        | some tc =>
          simp only [htc]
          cases rest with
          | nil => rfl
          | cons first rest2 =>
            have h2 : rest2.length ≤ n := by
              simp only [List.length_cons] at hrest
              omega
            have hb := (ih rest2 h2).2 tc.1 tc.2.1 prev first
            cases prev with
            | none => simpa [identDefault] using hb
            | some p =>
              by_cases hp : p = ""
              · subst hp; simpa [identDefault] using hb
              · simpa [identDefault, hp] using hb
      · intro tc1 tc2 ident acc
        rw [cueBlock.eq_def]
        by_cases hl : l = ""
        · subst hl
          simp only [ne_eq, not_true_eq_false, if_false, reduceIte]
          have h1 := (ih rest hrest).1 (some "")
          simp only [identDefault] at h1
          rw [h1, refBlock_cons_empty]
        · simp only [ne_eq, hl, not_false_eq_true, if_true, reduceIte]
          have h2 := (ih rest hrest).2 tc1 tc2 ident (acc ++ "\n" ++ l)
          rw [h2, refBlock_cons_ne _ _ _ _ _ _ hl]

lemma timeToSeconds_zero : timeToSeconds "00:00:00.000" = 0 := by
  have h1 : splitFrac "00:00:00.000".data = ("00:00:00".data, some ['0', '0', '0']) := by decide
  have h2 : (splitColon ("00:00:00".data)).foldl (fun acc f => acc * 60 + digitsToNat f) 0 = 0 := by
    decide
  have h3 : digitsToNat ['0', '0', '0'] = 0 := by decide
  simp only [timeToSeconds, h1, h2, h3]
  norm_num [Rat.mkRat_eq_div]

lemma timeToSeconds_five : timeToSeconds "00:00:05.000" = 5 := by
  have h1 : splitFrac "00:00:05.000".data = ("00:00:05".data, some ['0', '0', '0']) := by decide
  have h2 : (splitColon ("00:00:05".data)).foldl (fun acc f => acc * 60 + digitsToNat f) 0 = 5 := by
    decide
  have h3 : digitsToNat ['0', '0', '0'] = 0 := by decide
  simp only [timeToSeconds, h1, h2, h3]
  norm_num [Rat.mkRat_eq_div]

lemma cuesFromText_hello :
    captions_getCuesFromText "00:00:00.000 --> 00:00:05.000\nHello" =
      Except.ok [⟨mkRat 1 5, 5, none, "Hello"⟩] := by
  have hsplit : splitLines "00:00:00.000 --> 00:00:05.000\nHello" =
      ["00:00:00.000 --> 00:00:05.000", "Hello"] := by decide
  have htc : timecodeExec "00:00:00.000 --> 00:00:05.000" =
      some ("00:00:00.000", "00:00:05.000", "") := by decide
  have hurl : urlReplace (jsTrim "Hello") = "Hello" := by decide
  rw [captions_getCuesFromText, hsplit, cuesLoop.eq_def]
  simp only [htc]
  rw [cueBlock.eq_def]
  simp [mkCueEntry, timeToSeconds_zero, timeToSeconds_five, hurl]

lemma cuesClaim_hello :
    captions_getCuesFromTextClaim "00:00:00.000 --> 00:00:05.000\nHello" =
      [⟨0, 5, none, "Hello"⟩] := by
  have hsplit : splitLines "00:00:00.000 --> 00:00:05.000\nHello" =
      ["00:00:00.000 --> 00:00:05.000", "Hello"] := by decide
  have htc : timecodeExec "00:00:00.000 --> 00:00:05.000" =
      some ("00:00:00.000", "00:00:05.000", "") := by decide
  rw [captions_getCuesFromTextClaim, hsplit]
  simp only [cuesClaim]
  simp only [htc]
  split
  · next heq =>
    simp [List.takeWhile, List.dropWhile, joinOnto, timeToSeconds_zero, timeToSeconds_five]
  · next head rest4 heq =>
    have hd : List.dropWhile (fun x => decide (x ≠ "")) ["Hello"] = [] := by decide
    rw [hd] at heq
    exact List.noConfusion heq

/-- Claim C2 counterexample: the claim's reading of the parser (startTime
and endTime are exactly the parsed timecodes, text the raw concatenation of
the following lines, every timecode line yields a cue) is refuted twice
over. On "00:00:00.000 --> 00:00:05.000\nHello" the code replaces the
parsed start time 0 by 0.200, so the produced cue differs from the claim's;
and on "00:01 --> 00:02", whose single line matches the timecode pattern,
the code produces no cue list at all — it reads `lines[i+1]` past the end
and crashes on `cue.trim()`. -/
theorem captions_getCuesFromText_claim_counterexample :
    captions_getCuesFromText "00:00:00.000 --> 00:00:05.000\nHello" ≠
      Except.ok (captions_getCuesFromTextClaim "00:00:00.000 --> 00:00:05.000\nHello") ∧
    captions_getCuesFromText "00:01 --> 00:02" = Except.error () := by
  constructor
  · rw [cuesFromText_hello, cuesClaim_hello]
    intro h
    have h2 := Except.ok.inj h
    have h3 : (⟨mkRat 1 5, 5, none, "Hello"⟩ : Cue) = ⟨0, 5, none, "Hello"⟩ := by
      simpa using h2
    have h4 : (mkRat 1 5 : ℚ) = 0 := congrArg Cue.startTime h3
    exact absurd h4 (by decide)
  · have hs2 : splitLines "00:01 --> 00:02" = ["00:01 --> 00:02"] := by decide
    have ht2 : timecodeExec "00:01 --> 00:02" = some ("00:01", "00:02", "") := by decide
    rw [captions_getCuesFromText, hs2, cuesLoop.eq_def]
    simp [ht2]

/-- Claim C2 (amended): `Captions._getCuesFromText` is extensionally the
block-by-block reference parser: split the text at `\r?\n`; each line
matching the timecode pattern opens a cue whose startTime/endTime are the
parsed timecodes converted to seconds, except that a start time of exactly
0 becomes 0.200; the identifier is the immediately preceding line when that
is non-empty (after the first block an empty preceding line still yields
the identifier "", not no identifier); the text is the following lines up
to the next empty line joined with "\n", trimmed and with URLs wrapped in
anchor tags; lines not in such a block yield no cue; and a line matching
the timecode pattern with nothing after it makes the whole parse throw. -/
theorem captions_getCuesFromText_spec (text : String) :
    captions_getCuesFromText text = captions_getCuesFromTextRef text := by
  rw [captions_getCuesFromText, captions_getCuesFromTextRef]
  exact (cues_refine (splitLines text).length (splitLines text) le_rfl).1 none
/-- Claim C10: refuted as stated — `Captions._sanitize` does not return
sanitized output for every input; it throws instead. The `for` loop caches
`n = allElements.length` while `allElements` is live, so after
`removeElement(allElements[index])` the remaining indices overrun the
shrunken collection and `allElements[index].attributes` reads `undefined`.
Concretely: on `<b onclick=x></b><i></i>` the call throws a `TypeError`
(first conjunct); the same two elements without the flagged attribute pass
through untouched (second conjunct: the removal is what sets up the crash);
scripts and `style` attributes are removed as intended when no element
removal happens (third conjunct); and only a flagged element in the very
last collection slot is removed without a subsequent overrun (fourth
conjunct). -/
theorem captions_sanitize_crashes :
    captions_sanitize [⟨0, "b", [("onclick", "x")]⟩, ⟨0, "i", []⟩] =
      Except.error () ∧
    captions_sanitize [⟨0, "b", []⟩, ⟨0, "i", []⟩] =
      Except.ok [⟨0, "b", []⟩, ⟨0, "i", []⟩] ∧
    captions_sanitize [⟨0, "script", []⟩, ⟨0, "b", [("style", "color:red")]⟩] =
      Except.ok [⟨0, "b", []⟩] ∧
    captions_sanitize [⟨0, "i", []⟩, ⟨0, "b", [("onclick", "x")]⟩] =
      Except.ok [⟨0, "i", []⟩] := by
  exact ⟨rfl, rfl, rfl, rfl⟩
